import Mathlib

/-!
Verification development for the configuration validation and resolution
engine of a multi-agent orchestration CLI.

The Python modules `config_validate.py`, `config_resolve.py`,
`config_validate_v2.py` and `config_resolve_v2.py` are shallowly embedded
below.  Conventions used throughout:

* Python `dict`s appear as association lists `List (String × α)` with
  first-match lookup (`dlookup`) and overwrite-insert (`dinsert`); real
  Python dicts have unique keys, so first-match lookup agrees with dict
  lookup.
* `raise ValidationError(f"{path}: {msg}")` raised via the `_die` helper is
  modelled as `VErr.vdie path msg`; a `ValidationError` built from a single
  message string is `VErr.vmsg msg`.
* Python type checks (`isinstance`) on values that the claims only ever
  exercise at well-typed inputs are absorbed by the typed structures
  (`Config`, `Manifest`, ...).  Checks with semantic content (string
  non-emptiness after `strip()`, closed vocabularies, membership in
  allowed-model sets, key-set bounds of dict-valued fields) are kept
  verbatim.  Where a claim genuinely depends on untyped input (the file
  loading layer), an explicit `Yaml` value type is used.
-/

/-- Errors of the engine: `vdie path msg` models `_die(path, msg)`
(`ValidationError(f"{path}: {msg}")`), `vmsg m` models a
`ValidationError` built from a single message, and `keyError k` models a
Python `KeyError` escaping from a raw dict index (never a
`ValidationError`; kept distinct so the abnormal path stays visible). -/
inductive VErr where
  | vdie (path msg : String)
  | vmsg (msg : String)
  | keyError (key : String)
deriving DecidableEq, Repr

deriving instance DecidableEq for Except

/-- First-match association-list lookup; models Python `dict.get` /
`dict[k]` on dicts (which have unique keys). -/
def dlookup {α : Type} : List (String × α) → String → Option α
  | [], _ => none
  | (k, v) :: rest, key => if k = key then some v else dlookup rest key

/-- Replace the value stored under `k` (wherever it occurs), keeping
positions. -/
def doverwrite {α : Type} (k : String) (v : α) : List (String × α) → List (String × α)
  | [] => []
  | (k1, v1) :: rest =>
    if k1 = k then (k, v) :: doverwrite k v rest else (k1, v1) :: doverwrite k v rest

/-- Overwrite-or-append insert; models Python `d[k] = v` (an existing key
keeps its position, a new key is appended). -/
def dinsert {α : Type} (l : List (String × α)) (k : String) (v : α) : List (String × α) :=
  if (dlookup l k).isSome then doverwrite k v l else l ++ [(k, v)]

/-- `out = dict(base); out.update(override)`: base entries (with overridden
values) in base order, then the override entries whose keys are new. -/
def mergeDict {α : Type} (base override : List (String × α)) : List (String × α) :=
  base.map (fun p => (p.1, ((dlookup override p.1).getD p.2))) ++
    override.filter (fun p => (dlookup base p.1).isNone)

/-- The key list of an association list (`dict.keys()`). -/
def keysOf {α : Type} (l : List (String × α)) : List String :=
  l.map Prod.fst

/-- Insertion sort on strings; models Python `sorted` on string lists. -/
def sortStrings (l : List String) : List String :=
  let rec ins (s : String) : List String → List String
    | [] => [s]
    | t :: rest => if s ≤ t then s :: t :: rest else t :: ins s rest
  match l with
  | [] => []
  | s :: rest => ins s (sortStrings rest)

/-- Python whitespace (the characters `str.strip()` removes). -/
def isPySpace (c : Char) : Bool :=
  c == ' ' || c == '\t' || c == '\n' || c == '\r' || c == '\x0b' || c == '\x0c'

/-- Python `not s.strip()`: the string consists solely of whitespace. -/
def strIsBlank (s : String) : Bool :=
  s.data.all isPySpace

/-- Character-list `isPrefixOf`. -/
def isPreOf : List Char → List Char → Bool
  | [], _ => true
  | _ :: _, [] => false
  | a :: as, b :: bs => a == b && isPreOf as bs

/-- Character-list substring occurrence. -/
def subOf (needle : List Char) : List Char → Bool
  | [] => isPreOf needle []
  | h :: t => isPreOf needle (h :: t) || subOf needle t

/-- Python `needle in hay` substring test. -/
def strContains (hay needle : String) : Bool :=
  subOf needle.data hay.data

/-- Python `s.endswith(suf)`. -/
def strEndsWith (s suf : String) : Bool :=
  isPreOf suf.data.reverse s.data.reverse

/-- Split a character list at the first occurrence of `c`. -/
def charSplitFirst (c : Char) : List Char → Option (List Char × List Char)
  | [] => none
  | h :: t =>
    if h == c then some ([], t)
    else
      match charSplitFirst c t with
      | some (pre, post) => some (h :: pre, post)
      | none => none

/-- Python `s.split("_", 1)[1]`: everything after the first underscore
(empty when no underscore is present — Python would raise `IndexError`
there, and every caller only reaches this after establishing that an
underscore exists). -/
def stageRole (s : String) : String :=
  match charSplitFirst '_' s.data with
  | some (_, post) => String.mk post
  | none => ""

/-- Python `s.split("_", 1)[0]`: everything before the first underscore
(the whole string when no underscore is present). -/
def stageHead (s : String) : String :=
  match charSplitFirst '_' s.data with
  | some (pre, _) => String.mk pre
  | none => s

/-- Python truthy-`or` on an optional string with a string default:
`x or d` where `None` and `""` are falsy. -/
def pyOrS (x : Option String) (d : String) : String :=
  match x with
  | some s => if s = "" then d else s
  | none => d

/-- Run a fallible check over every element of a list, stopping at the
first failure (models a Python `for` loop of checks that `raise`). -/
def ensureEach {α : Type} (l : List α) (f : α → Except VErr Unit) : Except VErr Unit :=
  match l with
  | [] => .ok ()
  | a :: rest =>
    match f a with
    | .error e => .error e
    | .ok () => ensureEach rest f

/-- Indexed variant of `ensureEach` (for error paths like `path[i]`). -/
def ensureEachIdx {α : Type} (l : List α) (i : Nat) (f : Nat → α → Except VErr Unit) :
    Except VErr Unit :=
  match l with
  | [] => .ok ()
  | a :: rest =>
    match f i a with
    | .error e => .error e
    | .ok () => ensureEachIdx rest (i + 1) f

/-- A parsed YAML document (`yaml.safe_load` output restricted to the
shapes this code base manipulates). `ynull` is Python `None`. -/
inductive Yaml where
  | ynull : Yaml
  | ybool (b : Bool) : Yaml
  | yint (n : Int) : Yaml
  | ystr (s : String) : Yaml
  | ylist (l : List Yaml) : Yaml
  | ymap (m : List (String × Yaml)) : Yaml

/-- A YAML value as `Optional[str]`: strings pass through, everything else
(including absence) is `none`. -/
def yamlStr? : Option Yaml → Option String
  | some (.ystr s) => some s
  | _ => none

/-- The three servants (`SERVANT_NAMES = ("codex", "gemini", "copilot")`). -/
inductive Tool where
  | codex
  | gemini
  | copilot
deriving DecidableEq, Repr

def Tool.tname : Tool → String
  | .codex => "codex"
  | .gemini => "gemini"
  | .copilot => "copilot"

def toolOfString (s : String) : Option Tool :=
  if s = "codex" then some .codex
  else if s = "gemini" then some .gemini
  else if s = "copilot" then some .copilot
  else none

def SERVANT_NAMES : List String := ["codex", "gemini", "copilot"]

/-- The two dispatchable pipelines probed by
`_find_pipeline_for_profile_name` (in this order). -/
inductive DPipe where
  | impl
  | review
deriving DecidableEq, Repr

def DPipe.pname : DPipe → String
  | .impl => "impl"
  | .review => "review"

/-- All three v1 pipelines. -/
inductive PK where
  | impl
  | review
  | plan
deriving DecidableEq, Repr

def PK.pname : PK → String
  | .impl => "impl"
  | .review => "review"
  | .plan => "plan"

def PURPOSE_NAMES : List String := ["impl", "review", "verify", "plan", "one_shot"]

def CODEX_EFFORT_VALUES : List String := ["low", "medium", "high", "xhigh"]

def GEMINI_APPROVAL_VALUES : List String := ["default", "auto_edit", "yolo"]

def TIMEOUT_MODE_VALUES : List String := ["enforce", "wait_done"]

def WRAPPER_DEFAULT_KEYS : Tool → List String
  | .codex => ["effort", "timeout_ms", "timeout_mode"]
  | .gemini => ["approval_mode", "sandbox", "timeout_ms", "timeout_mode"]
  | .copilot => ["timeout_ms", "timeout_mode"]

def PIPELINE_FLAGS : PK → List String
  | .impl => ["enable_brief", "enable_verify", "enable_review"]
  | .review => ["enable_verify", "enable_review"]
  | .plan => ["enable_stage2_codex", "enable_stage2_gemini", "enable_stage3_cross_review"]

def PIPELINE_OPTION_KEYS : PK → List String
  | .impl => ["impl_mode", "timeout_mode"]
  | .review => ["review_mode", "timeout_mode"]
  | .plan => ["consolidate_mode", "timeout_mode"]

def PIPELINE_OPTION_VALUES : PK → String → List String
  | .impl, "impl_mode" => ["safe", "one_shot"]
  | .impl, "timeout_mode" => ["enforce", "wait_done"]
  | .review, "review_mode" => ["codex_only", "cross"]
  | .review, "timeout_mode" => ["enforce", "wait_done"]
  | .plan, "consolidate_mode" => ["standard"]
  | .plan, "timeout_mode" => ["enforce", "wait_done"]
  | _, _ => []

/-- `PLAN_STAGE_TOOL` from `config_validate.py`. -/
def PLAN_STAGE_TOOL (stage : String) : Option Tool :=
  if stage = "stage1" then some .copilot
  else if stage = "stage2_codex" then some .codex
  else if stage = "stage2_gemini" then some .gemini
  else if stage = "stage3_codex_review" then some .codex
  else if stage = "stage3_gemini_review" then some .gemini
  else if stage = "stage4" then some .copilot
  else none

/-- `_stage_to_tool(stage, pipeline_name)` from `config_validate.py`. -/
def stageToTool (stage : String) (pk : PK) : Option Tool :=
  match pk with
  | .plan => PLAN_STAGE_TOOL stage
  | _ =>
    if strContains stage "_" then
      toolOfString (stageHead stage)
    else none

/-! ## Typed v1 data model

The validated shapes of `config_validate.py`.  Every `isinstance` check of
the Python validator whose failure the claims never exercise is carried by
the types below; checks with semantic content are reproduced verbatim in
the validators that follow.  Quoted fragments of Python f-string messages
are rendered without the surrounding single quotes. -/

structure ServantCfg where
  default_model : String
  allowed_models : List String
  wrapper_defaults : List (String × Yaml)
  purpose_models : List (String × String)
  purpose_efforts : List (String × String)

structure ProfileCfg where
  stages : List String
  flags : List (String × Bool)
  options : List (String × String)
  stage_models : List (String × String)
  stage_efforts : List (String × String)
deriving DecidableEq, Repr

structure PipelineCfg where
  default_profile : String
  profiles : List (String × ProfileCfg)
deriving DecidableEq, Repr

structure Config where
  codex : ServantCfg
  gemini : ServantCfg
  copilot : ServantCfg
  impl : PipelineCfg
  review : PipelineCfg
  plan : PipelineCfg

def Config.servant (cfg : Config) : Tool → ServantCfg
  | .codex => cfg.codex
  | .gemini => cfg.gemini
  | .copilot => cfg.copilot

def Config.pipelineOf (cfg : Config) : PK → PipelineCfg
  | .impl => cfg.impl
  | .review => cfg.review
  | .plan => cfg.plan

def Config.dpipeline (cfg : Config) : DPipe → PipelineCfg
  | .impl => cfg.impl
  | .review => cfg.review

/-- Manifest `routing.pipeline` block. -/
structure PipelineOverride where
  profile : Option String
  flags : List (String × Bool)
  options : List (String × String)
deriving DecidableEq, Repr

/-- Manifest `routing` block. -/
structure Routing where
  intent : Option String
  model : List (String × String)
  pipeline : Option PipelineOverride
deriving DecidableEq, Repr

/-- A task manifest, restricted to the `routing` key (the only key the
engine reads; other manifest keys are never inspected). -/
structure Manifest where
  routing : Option Routing
deriving DecidableEq, Repr

def emptyRouting : Routing := ⟨none, [], none⟩

/-- `manifest.get("routing") or {}`. -/
def Manifest.routingD (m : Manifest) : Routing := m.routing.getD emptyRouting

def emptyPipelineOverride : PipelineOverride := ⟨none, [], []⟩

/-- `routing.get("pipeline") or {}`. -/
def Routing.pipelineD (r : Routing) : PipelineOverride := r.pipeline.getD emptyPipelineOverride

/-! ## Typed v1 validator (`validate_runtime_config_dict` and friends) -/

/-- `_ensure_keys(mapping, allowed, path)`. -/
def ensureKeys {α : Type} (m : List (String × α)) (allowed : List String) (path : String) :
    Except VErr Unit :=
  let unknown := sortStrings ((keysOf m).filter (fun k => !allowed.contains k)).dedup
  if unknown = [] then .ok ()
  else .error (.vdie path ("unknown keys: " ++ String.intercalate ", " unknown))

/-- `_expect_str_set(value, path)` on an already list-of-strings value:
every item must be non-empty after stripping. -/
def expectStrSet (value : List String) (path : String) : Except VErr Unit :=
  ensureEachIdx value 0 (fun i item =>
    if strIsBlank item then
      .error (.vdie (path ++ "[" ++ toString i ++ "]") "must be a non-empty string")
    else .ok ())

def mustBeOneOf (vals : List String) : String :=
  "must be one of: " ++ String.intercalate ", " vals

/-- One entry of the `wrapper_defaults` value-check loop of
`validate_runtime_config_dict`. -/
def validateWrapperEntry (spath : String) (servant : Tool) (key : String) (raw : Yaml) :
    Except VErr Unit :=
  let key_path := spath ++ ".wrapper_defaults." ++ key
  if key = "timeout_ms" then
    match raw with
    | .yint n => if n < 0 then .error (.vdie key_path "must be a non-negative integer") else .ok ()
    | _ => .error (.vdie key_path "must be a non-negative integer")
  else if key = "timeout_mode" then
    match raw with
    | .ystr s =>
      if TIMEOUT_MODE_VALUES.contains s then .ok ()
      else .error (.vdie key_path (mustBeOneOf (sortStrings TIMEOUT_MODE_VALUES)))
    | _ => .error (.vdie key_path (mustBeOneOf (sortStrings TIMEOUT_MODE_VALUES)))
  else if servant = .codex ∧ key = "effort" then
    match raw with
    | .ystr s =>
      if CODEX_EFFORT_VALUES.contains s then .ok ()
      else .error (.vdie key_path (mustBeOneOf (sortStrings CODEX_EFFORT_VALUES)))
    | _ => .error (.vdie key_path (mustBeOneOf (sortStrings CODEX_EFFORT_VALUES)))
  else if servant = .gemini ∧ key = "approval_mode" then
    match raw with
    | .ystr s =>
      if GEMINI_APPROVAL_VALUES.contains s then .ok ()
      else .error (.vdie key_path (mustBeOneOf (sortStrings GEMINI_APPROVAL_VALUES)))
    | _ => .error (.vdie key_path (mustBeOneOf (sortStrings GEMINI_APPROVAL_VALUES)))
  else if servant = .gemini ∧ key = "sandbox" then
    match raw with
    | .ybool _ => .ok ()
    | _ => .error (.vdie key_path "must be boolean")
  else .ok ()

/-- The per-servant portion of `validate_runtime_config_dict` (the body of
its `for servant in SERVANT_NAMES` loop), in source order. -/
def validateServantNode (cfg_path : String) (servant : Tool) (node : ServantCfg) :
    Except VErr Unit :=
  let spath := cfg_path ++ ".servants." ++ servant.tname
  if strIsBlank node.default_model then
    .error (.vdie (spath ++ ".default_model") "must be a non-empty string")
  else
  match expectStrSet node.allowed_models (spath ++ ".allowed_models") with
  | .error e => .error e
  | .ok () =>
  if ¬ node.allowed_models.contains node.default_model then
    .error (.vdie (spath ++ ".default_model") "must be included in allowed_models")
  else
  match ensureKeys node.wrapper_defaults (WRAPPER_DEFAULT_KEYS servant)
      (spath ++ ".wrapper_defaults") with
  | .error e => .error e
  | .ok () =>
  let missingWrapper :=
    sortStrings ((WRAPPER_DEFAULT_KEYS servant).filter
      (fun k => (dlookup node.wrapper_defaults k).isNone))
  if missingWrapper ≠ [] then
    .error (.vdie (spath ++ ".wrapper_defaults")
      ("missing required keys: " ++ String.intercalate ", " missingWrapper))
  else
  match ensureEach node.wrapper_defaults (fun p => validateWrapperEntry spath servant p.1 p.2) with
  | .error e => .error e
  | .ok () =>
  match ensureKeys node.purpose_models PURPOSE_NAMES (spath ++ ".purpose_models") with
  | .error e => .error e
  | .ok () =>
  match ensureEach node.purpose_models (fun p =>
      if strIsBlank p.2 then
        .error (.vdie (spath ++ ".purpose_models." ++ p.1) "must be a non-empty string")
      else if ¬ node.allowed_models.contains p.2 then
        .error (.vdie (spath ++ ".purpose_models." ++ p.1)
          ("model " ++ p.2 ++ " is not in allowed_models"))
      else .ok ()) with
  | .error e => .error e
  | .ok () =>
  if servant ≠ .codex ∧ node.purpose_efforts ≠ [] then
    .error (.vdie (spath ++ ".purpose_efforts") "is only supported for codex")
  else
  match ensureKeys node.purpose_efforts PURPOSE_NAMES (spath ++ ".purpose_efforts") with
  | .error e => .error e
  | .ok () =>
  ensureEach node.purpose_efforts (fun p =>
    if ¬ CODEX_EFFORT_VALUES.contains p.2 then
      .error (.vdie (spath ++ ".purpose_efforts." ++ p.1)
        (mustBeOneOf (sortStrings CODEX_EFFORT_VALUES)))
    else .ok ())

/-- The per-profile portion of `validate_runtime_config_dict` (the body of
its `for profile_name, profile in profiles.items()` loop). -/
def validateProfileNode (cfg : Config) (cfg_path : String) (pk : PK) (profileName : String)
    (profile : ProfileCfg) : Except VErr Unit :=
  let ppath := cfg_path ++ ".pipelines." ++ pk.pname ++ ".profiles." ++ profileName
  let stagesCheck : Except VErr Unit :=
    match pk with
    | .impl | .review =>
      match expectStrSet profile.stages (ppath ++ ".stages") with
      | .error e => .error e
      | .ok () =>
        if profile.stages = [] then .error (.vdie (ppath ++ ".stages") "must not be empty")
        else ensureEachIdx profile.stages 0 (fun idx stage =>
          match stageToTool stage pk with
          | none =>
            .error (.vdie (ppath ++ ".stages[" ++ toString idx ++ "]")
              "must start with a known tool prefix")
          | some _ => .ok ())
    | .plan =>
      if profile.stages ≠ [] then
        .error (.vdie (ppath ++ ".stages") "is not supported for the plan pipeline")
      else .ok ()
  match stagesCheck with
  | .error e => .error e
  | .ok () =>
  match ensureKeys profile.flags (PIPELINE_FLAGS pk) (ppath ++ ".flags") with
  | .error e => .error e
  | .ok () =>
  match ensureKeys profile.options (PIPELINE_OPTION_KEYS pk) (ppath ++ ".options") with
  | .error e => .error e
  | .ok () =>
  match ensureEach profile.options (fun p =>
      if ¬ (PIPELINE_OPTION_VALUES pk p.1).contains p.2 then
        .error (.vdie (ppath ++ ".options." ++ p.1)
          (mustBeOneOf (sortStrings (PIPELINE_OPTION_VALUES pk p.1))))
      else .ok ()) with
  | .error e => .error e
  | .ok () =>
  match ensureEach profile.stage_models (fun p =>
      if strIsBlank p.2 then
        .error (.vdie (ppath ++ ".stage_models." ++ p.1) "must be a non-empty string")
      else match stageToTool p.1 pk with
        | none => .error (.vdie (ppath ++ ".stage_models." ++ p.1) "unknown stage name")
        | some t =>
          if ¬ (cfg.servant t).allowed_models.contains p.2 then
            .error (.vdie (ppath ++ ".stage_models." ++ p.1)
              ("model " ++ p.2 ++ " is not allowed for servant " ++ t.tname))
          else .ok ()) with
  | .error e => .error e
  | .ok () =>
  ensureEach profile.stage_efforts (fun p =>
    if ¬ CODEX_EFFORT_VALUES.contains p.2 then
      .error (.vdie (ppath ++ ".stage_efforts." ++ p.1)
        (mustBeOneOf (sortStrings CODEX_EFFORT_VALUES)))
    else match stageToTool p.1 pk with
      | none => .error (.vdie (ppath ++ ".stage_efforts." ++ p.1) "unknown stage name")
      | some t =>
        if t ≠ .codex then
          .error (.vdie (ppath ++ ".stage_efforts." ++ p.1)
            "is only supported for codex stages")
        else .ok ())

/-- The per-pipeline portion of `validate_runtime_config_dict`. -/
def validatePipelineNode (cfg : Config) (cfg_path : String) (pk : PK) (pipeline : PipelineCfg) :
    Except VErr Unit :=
  let base := cfg_path ++ ".pipelines." ++ pk.pname
  if strIsBlank pipeline.default_profile then
    .error (.vdie (base ++ ".default_profile") "must be a non-empty string")
  else if pipeline.profiles = [] then
    .error (.vdie (base ++ ".profiles") "must define at least one profile")
  else if (dlookup pipeline.profiles pipeline.default_profile).isNone then
    .error (.vdie (base ++ ".default_profile") "must match a profile name")
  else ensureEach pipeline.profiles (fun p => validateProfileNode cfg cfg_path pk p.1 p.2)

/-- `validate_runtime_config_dict(cfg, cfg_path)`: servants in
`SERVANT_NAMES` order, then pipelines in `("impl", "review", "plan")`
order; returns the config unchanged on success. -/
def validateRuntimeConfigDict (cfg : Config) (cfg_path : String) : Except VErr Config :=
  match validateServantNode cfg_path .codex cfg.codex with
  | .error e => .error e
  | .ok () =>
  match validateServantNode cfg_path .gemini cfg.gemini with
  | .error e => .error e
  | .ok () =>
  match validateServantNode cfg_path .copilot cfg.copilot with
  | .error e => .error e
  | .ok () =>
  match validatePipelineNode cfg cfg_path .impl cfg.impl with
  | .error e => .error e
  | .ok () =>
  match validatePipelineNode cfg cfg_path .review cfg.review with
  | .error e => .error e
  | .ok () =>
  match validatePipelineNode cfg cfg_path .plan cfg.plan with
  | .error e => .error e
  | .ok () => .ok cfg

/-! ## Typed v1 manifest-extension validator (`validate_manifest_extensions`) -/

/-- `set().union(*PIPELINE_FLAGS.values())`. -/
def ALL_PIPELINE_FLAGS : List String :=
  (PIPELINE_FLAGS .impl ++ PIPELINE_FLAGS .review ++ PIPELINE_FLAGS .plan).dedup

/-- Keys of the `allowed_options` union built by updating over
`PIPELINE_OPTIONS` in `impl, review, plan` order. -/
def ALL_PIPELINE_OPTION_KEYS : List String :=
  ["impl_mode", "timeout_mode", "review_mode", "consolidate_mode"]

def ALL_PIPELINE_OPTION_VALUES : String → List String
  | "impl_mode" => ["safe", "one_shot"]
  | "timeout_mode" => ["enforce", "wait_done"]
  | "review_mode" => ["codex_only", "cross"]
  | "consolidate_mode" => ["standard"]
  | _ => []

/-- `_pipeline_name_for_intent(cfg, intent)` from `config_validate.py`:
probe `impl` then `review`. -/
def pipelineNameForIntent (cfg : Config) (intent : String) : Option DPipe :=
  if (dlookup cfg.impl.profiles intent).isSome then some .impl
  else if (dlookup cfg.review.profiles intent).isSome then some .review
  else none

/-- `validate_manifest_extensions(cfg, manifest, manifest_path)`.  A `none`
routing block behaves like the falsy `routing = {}` of the Python code, on
which every later check passes vacuously. -/
def validateManifestExtensions (cfg : Config) (manifest : Manifest) (manifest_path : String) :
    Except VErr Unit :=
  match manifest.routing with
  | none => .ok ()
  | some routing =>
    let modelMap := routing.model
    let modelCheck : Except VErr Unit :=
      if modelMap ≠ [] then
        match ensureKeys modelMap SERVANT_NAMES (manifest_path ++ ".routing.model") with
        | .error e => .error e
        | .ok () => ensureEach modelMap (fun p =>
            if strIsBlank p.2 then
              .error (.vdie (manifest_path ++ ".routing.model." ++ p.1)
                "must be a non-empty string")
            else match toolOfString p.1 with
              | none => .error (.keyError p.1)
              | some t =>
                if ¬ (cfg.servant t).allowed_models.contains p.2 then
                  .error (.vdie (manifest_path ++ ".routing.model." ++ p.1)
                    ("model " ++ p.2 ++ " is not in allowed_models"))
                else .ok ())
      else .ok ()
    match modelCheck with
    | .error e => .error e
    | .ok () =>
    match routing.pipeline with
    | none => .ok ()
    | some pl =>
      let profileCheck : Except VErr Unit :=
        match pl.profile with
        | some s =>
          if strIsBlank s then
            .error (.vdie (manifest_path ++ ".routing.pipeline.profile")
              "must be a non-empty string")
          else .ok ()
        | none => .ok ()
      match profileCheck with
      | .error e => .error e
      | .ok () =>
      match ensureKeys pl.flags ALL_PIPELINE_FLAGS (manifest_path ++ ".routing.pipeline.flags") with
      | .error e => .error e
      | .ok () =>
      match ensureKeys pl.options ALL_PIPELINE_OPTION_KEYS
          (manifest_path ++ ".routing.pipeline.options") with
      | .error e => .error e
      | .ok () =>
      match ensureEach pl.options (fun p =>
          if ¬ (ALL_PIPELINE_OPTION_VALUES p.1).contains p.2 then
            .error (.vdie (manifest_path ++ ".routing.pipeline.options." ++ p.1)
              (mustBeOneOf (sortStrings (ALL_PIPELINE_OPTION_VALUES p.1))))
          else .ok ()) with
      | .error e => .error e
      | .ok () =>
      match routing.intent with
      | some intent =>
        match pipelineNameForIntent cfg intent with
        | some group =>
          match pl.profile with
          | some pn =>
            if pn ≠ "" ∧ (dlookup (cfg.dpipeline group).profiles pn).isNone then
              .error (.vdie (manifest_path ++ ".routing.pipeline.profile")
                ("profile " ++ pn ++ " is not defined in pipelines." ++ group.pname ++ ".profiles"))
            else .ok ()
          | none => .ok ()
        | none => .ok ()
      | none => .ok ()

/-! ## Dispatch resolver (`resolve_dispatch` from `config_resolve.py`) -/

/-- `_stage_tool(stage_name)` from `config_resolve.py`. -/
def stageTool (stageName : String) : Except VErr Tool :=
  if ¬ strContains stageName "_" then
    .error (.vmsg ("stage " ++ stageName ++ " must include tool prefix"))
  else
    match toolOfString (stageHead stageName) with
    | none =>
      .error (.vmsg ("stage " ++ stageName ++ " starts with unknown tool " ++
        stageHead stageName))
    | some t => .ok t

/-- `_dispatch_stage_purpose(stage, pipeline, options)`. -/
def dispatchStagePurpose (stage : String) (pipeline : DPipe) (options : List (String × String)) :
    String :=
  let role := if strContains stage "_" then stageRole stage else stage
  let implMode := dlookup options "impl_mode"
  if role = "impl" ∨ role = "test_impl" then "impl"
  else if role = "verify" ∨ role = "static_verify" then "verify"
  else if strContains role "review" then "review"
  else if role = "runbook" then "one_shot"
  else if role = "brief" ∨ role = "test_design" then
    (if pipeline = DPipe.impl ∧ implMode = some "one_shot" then "one_shot" else "plan")
  else if pipeline = DPipe.impl then "plan" else "review"

/-- `_find_pipeline_for_profile_name(cfg, profile_name)`: probe the
pipelines in the fixed order `("impl", "review")`. -/
def findPipelineForProfileName (cfg : Config) (profileName : String) : Option DPipe :=
  if (dlookup cfg.impl.profiles profileName).isSome then some .impl
  else if (dlookup cfg.review.profiles profileName).isSome then some .review
  else none

/-- `_profile_data(cfg, pipeline, profile)`. -/
def profileData (cfg : Config) (pipeline : DPipe) (profile : String) : Except VErr ProfileCfg :=
  match dlookup (cfg.dpipeline pipeline).profiles profile with
  | none =>
    .error (.vmsg ("pipeline " ++ pipeline.pname ++ " does not define profile " ++ profile))
  | some node => .ok node

/-- The `enable_brief` filter of `_apply_dispatch_flag_filters`. -/
def briefFilter (flags : List (String × Bool)) (stages : List String) : List String :=
  if dlookup flags "enable_brief" = some false then
    stages.filter (fun s => !strEndsWith s "_brief")
  else stages

/-- The `enable_verify` filter of `_apply_dispatch_flag_filters`. -/
def verifyFilter (flags : List (String × Bool)) (stages : List String) : List String :=
  if dlookup flags "enable_verify" = some false then
    stages.filter (fun s => !strContains (stageRole s) "verify")
  else stages

/-- The `enable_review` filter of `_apply_dispatch_flag_filters`. -/
def reviewFilter (flags : List (String × Bool)) (stages : List String) : List String :=
  if dlookup flags "enable_review" = some false then
    stages.filter (fun s => !strContains (stageRole s) "review")
  else stages

/-- `_apply_dispatch_flag_filters(stages, flags)`: the three filters in
source order (brief, verify, review). -/
def applyDispatchFlagFilters (stages : List String) (flags : List (String × Bool)) :
    List String :=
  reviewFilter flags (verifyFilter flags (briefFilter flags stages))

def DISPATCH_ALLOWED_FLAGS : DPipe → List String
  | .impl => ["enable_brief", "enable_verify", "enable_review"]
  | .review => ["enable_verify", "enable_review"]

/-- The per-pipeline option keys accepted by `resolve_dispatch` itself. -/
def DISPATCH_ALLOWED_OPTION_KEYS : DPipe → List String
  | .impl => ["impl_mode", "timeout_mode"]
  | .review => ["review_mode", "timeout_mode", "security_mode"]

def checkUnsupportedFlags (pipeline : DPipe) (runtimeFlags : List (String × Bool)) :
    Except VErr Unit :=
  let unsupported := sortStrings
    ((keysOf runtimeFlags).filter (fun k => !(DISPATCH_ALLOWED_FLAGS pipeline).contains k)).dedup
  if unsupported = [] then .ok ()
  else .error (.vmsg ("pipeline " ++ pipeline.pname ++ " does not support flags: " ++
    String.intercalate ", " unsupported))

def checkUnsupportedOptions (pipeline : DPipe) (runtimeOptions : List (String × String)) :
    Except VErr Unit :=
  let unsupported := sortStrings
    ((keysOf runtimeOptions).filter
      (fun k => !(DISPATCH_ALLOWED_OPTION_KEYS pipeline).contains k)).dedup
  if unsupported = [] then .ok ()
  else .error (.vmsg ("pipeline " ++ pipeline.pname ++ " does not support options: " ++
    String.intercalate ", " unsupported))

/-- The state of `resolve_dispatch` after profile selection, flag/option
merging and mode-to-profile remapping (lines 186-248), i.e. just before
the stage plan is computed.  `preRemapProfile` is the value of
`profile_override or profile_from_intent`. -/
structure SelectResult where
  pipeline : DPipe
  requestedIntent : String
  preRemapProfile : String
  profile : String
  profileRuntime : ProfileCfg
  runtimeFlags : List (String × Bool)
  runtimeOptions : List (String × String)
deriving DecidableEq, Repr

/-- Lines 186-190 of `config_resolve.py`: the requested intent is the
manifest intent (or the caller default), overridden by an explicit
non-"auto" plan name. -/
def requestedIntentOf (manifest : Manifest) (planName intentDefault : String) : String :=
  if planName ≠ "auto" then planName else pyOrS manifest.routingD.intent intentDefault

/-- The mode-to-profile remapping of lines 214-242 of `config_resolve.py`:
`impl_mode=safe/one_shot` reselects `safe_impl`/`one_shot_impl`,
`review_mode=codex_only/cross` reselects `codex_only`/`review_cross`. -/
def remapProfileForMode (pipeline : DPipe) (runtimeOptions : List (String × String))
    (selectedProfile0 : String) : String :=
  match pipeline with
  | .impl =>
    match dlookup runtimeOptions "impl_mode" with
    | some s =>
      if s = "safe" then "safe_impl"
      else if s = "one_shot" then "one_shot_impl"
      else selectedProfile0
    | none => selectedProfile0
  | .review =>
    match dlookup runtimeOptions "review_mode" with
    | some s =>
      if s = "codex_only" then "codex_only"
      else if s = "cross" then "review_cross"
      else selectedProfile0
    | none => selectedProfile0

def resolveDispatchSelect (cfg : Config) (manifest : Manifest) (planName intentDefault : String) :
    Except VErr SelectResult :=
  let routing := manifest.routingD
  let requestedIntent := requestedIntentOf manifest planName intentDefault
  match findPipelineForProfileName cfg requestedIntent with
  | none =>
    .error (.vmsg ("routing.intent " ++ requestedIntent ++
      " is not defined in pipelines.impl/review"))
  | some pipeline =>
    let pipelineOverride := routing.pipelineD
    let selectedProfile0 := pyOrS pipelineOverride.profile requestedIntent
    match profileData cfg pipeline selectedProfile0 with
    | .error e => .error e
    | .ok profileRuntime0 =>
      let flagsOverride := pipelineOverride.flags
      let optionsOverride := pipelineOverride.options
      let runtimeFlags0 := mergeDict profileRuntime0.flags flagsOverride
      let runtimeOptions0 := mergeDict profileRuntime0.options optionsOverride
      match checkUnsupportedFlags pipeline runtimeFlags0 with
      | .error e => .error e
      | .ok () =>
      match checkUnsupportedOptions pipeline runtimeOptions0 with
      | .error e => .error e
      | .ok () =>
      let selectedProfile := remapProfileForMode pipeline runtimeOptions0 selectedProfile0
      if selectedProfile ≠ selectedProfile0 then
        match profileData cfg pipeline selectedProfile with
        | .error e => .error e
        | .ok pr =>
          .ok ⟨pipeline, requestedIntent, selectedProfile0, selectedProfile, pr,
               mergeDict pr.flags flagsOverride, mergeDict pr.options optionsOverride⟩
      else
        .ok ⟨pipeline, requestedIntent, selectedProfile0, selectedProfile, profileRuntime0,
             runtimeFlags0, runtimeOptions0⟩

/-- `_resolve_tool_models(cfg, manifest)`: per-servant defaults in
`SERVANT_NAMES` order, updated by `routing.model`. -/
def resolveToolModels (cfg : Config) (manifest : Manifest) : List (String × String) :=
  mergeDict
    [("codex", cfg.codex.default_model), ("gemini", cfg.gemini.default_model),
     ("copilot", cfg.copilot.default_model)]
    manifest.routingD.model

/-- The membership checks of `_resolve_purpose_models` for one servant. -/
def checkPurposeModelsFor (cfg : Config) (t : Tool) : Except VErr Unit :=
  ensureEach (cfg.servant t).purpose_models (fun p =>
    if ¬ PURPOSE_NAMES.contains p.1 then
      .error (.vmsg ("servants." ++ t.tname ++ ".purpose_models has unknown key " ++ p.1))
    else if ¬ (cfg.servant t).allowed_models.contains p.2 then
      .error (.vmsg ("servants." ++ t.tname ++ ".purpose_models." ++ p.1 ++ "=" ++ p.2 ++
        " is not allowed"))
    else .ok ())

/-- `_resolve_purpose_models(cfg)` (its checks; the returned per-tool maps
are read back via `Config.servant _ |>.purpose_models`, which is exactly
the dict the Python function returns). -/
def resolvePurposeModelsCheck (cfg : Config) : Except VErr Unit :=
  match checkPurposeModelsFor cfg .codex with
  | .error e => .error e
  | .ok () =>
    match checkPurposeModelsFor cfg .gemini with
    | .error e => .error e
    | .ok () => checkPurposeModelsFor cfg .copilot

/-- The `purpose_models` dict that `resolve_dispatch` places in its result. -/
def purposeModelsOut (cfg : Config) : List (String × List (String × String)) :=
  [("codex", cfg.codex.purpose_models), ("gemini", cfg.gemini.purpose_models),
   ("copilot", cfg.copilot.purpose_models)]

/-- `_resolve_codex_purpose_efforts(cfg)` (its checks). -/
def resolveCodexPurposeEffortsCheck (cfg : Config) : Except VErr Unit :=
  ensureEach cfg.codex.purpose_efforts (fun p =>
    if ¬ PURPOSE_NAMES.contains p.1 then
      .error (.vmsg ("servants.codex.purpose_efforts has unknown key " ++ p.1))
    else if ¬ CODEX_EFFORT_VALUES.contains p.2 then
      .error (.vmsg ("servants.codex.purpose_efforts." ++ p.1 ++ "=" ++ p.2 ++ " is invalid"))
    else .ok ())

/-- Lines 257-264 of `config_resolve.py`: an explicitly given
`timeout_mode` option outside the vocabulary is rejected. -/
def checkTimeoutModeOverride (pipeline : DPipe) (tmo : Option String) : Except VErr Unit :=
  match tmo with
  | none => .ok ()
  | some s =>
    if TIMEOUT_MODE_VALUES.contains s then .ok ()
    else .error (.vmsg ("pipeline " ++ pipeline.pname ++ " timeout_mode=" ++ s ++ " is invalid"))

/-- Lines 266-273 of `config_resolve.py`: every profile-level per-stage
model must belong to that stage servant allowed set. -/
def checkProfileStageModels (cfg : Config) (selectedProfile : String)
    (sm : List (String × String)) : Except VErr Unit :=
  ensureEach sm (fun p =>
    match stageTool p.1 with
    | .error e => .error e
    | .ok t =>
      if ¬ (cfg.servant t).allowed_models.contains p.2 then
        .error (.vmsg ("profile " ++ selectedProfile ++ " stage_models." ++ p.1 ++ "=" ++
          p.2 ++ " is not allowed for " ++ t.tname))
      else .ok ())

/-- Lines 275-285 of `config_resolve.py`. -/
def checkProfileStageEfforts (cfg : Config) (selectedProfile : String)
    (se : List (String × String)) : Except VErr Unit :=
  ensureEach se (fun p =>
    match stageTool p.1 with
    | .error e => .error e
    | .ok t =>
      if t ≠ .codex then
        .error (.vmsg ("profile " ++ selectedProfile ++ " stage_efforts." ++ p.1 ++
          " is only supported for codex stages"))
      else if ¬ CODEX_EFFORT_VALUES.contains p.2 then
        .error (.vmsg ("profile " ++ selectedProfile ++ " stage_efforts." ++ p.1 ++ "=" ++
          p.2 ++ " is invalid"))
      else .ok ())

/-- The per-stage result of the main loop of `resolve_dispatch`. -/
structure StageRes where
  model : String
  timeoutMs : Int
  timeoutMode : String
  effort : Option String
deriving DecidableEq, Repr

/-- The per-stage model precedence chain (lines 294-302 of
`config_resolve.py`): task-level per-servant override, then profile-level
per-stage override, then the per-purpose model table, then
`tool_models[tool]`.  The final fallback is reached only when
`routing_model_overrides` has no entry for the tool, in which case
`tool_models[tool]` is exactly the servant default model. -/
def stageModelOf (cfg : Config) (tool : Tool) (stageName stagePurpose : String)
    (routingModelOverrides profileStageModels : List (String × String)) : String :=
  match dlookup routingModelOverrides tool.tname with
  | some m => m
  | none =>
    match dlookup profileStageModels stageName with
    | some m => m
    | none =>
      match dlookup (cfg.servant tool).purpose_models stagePurpose with
      | some m => m
      | none => (cfg.servant tool).default_model

/-- `timeout_mode_override or wrapper_defaults[tool].get("timeout_mode")`
(line 312), as the string candidate later checked against the vocabulary;
non-string wrapper values become `none` (and thus fail the vocabulary
check exactly as in Python). -/
def stageTimeoutModeCand (wd : List (String × Yaml)) (tmo : Option String) : Option String :=
  match tmo with
  | some s => if s ≠ "" then some s else yamlStr? (dlookup wd "timeout_mode")
  | none => yamlStr? (dlookup wd "timeout_mode")

/-- The codex effort precedence chain (lines 321-326): profile per-stage
effort, then the per-purpose effort table, then the wrapper default. -/
def stageEffortCand (cfg : Config) (profileStageEfforts : List (String × String))
    (stageName stagePurpose : String) : Option String :=
  match dlookup profileStageEfforts stageName with
  | some e => some e
  | none =>
    match dlookup cfg.codex.purpose_efforts stagePurpose with
    | some e => some e
    | none => yamlStr? (dlookup cfg.codex.wrapper_defaults "effort")

/-- One iteration of the `for stage_name in stage_plan` loop of
`resolve_dispatch` (lines 291-331). -/
def resolveStageOne (cfg : Config) (pipeline : DPipe) (runtimeOptions : List (String × String))
    (routingModelOverrides profileStageModels profileStageEfforts : List (String × String))
    (timeoutModeOverride : Option String) (stageName : String) : Except VErr StageRes :=
  match stageTool stageName with
  | .error e => .error e
  | .ok tool =>
    let stagePurpose := dispatchStagePurpose stageName pipeline runtimeOptions
    let stageModel :=
      stageModelOf cfg tool stageName stagePurpose routingModelOverrides profileStageModels
    let wd := (cfg.servant tool).wrapper_defaults
    match dlookup wd "timeout_ms" with
    | some (.yint n) =>
      if n ≥ 0 then
        match stageTimeoutModeCand wd timeoutModeOverride with
        | some tm =>
          if TIMEOUT_MODE_VALUES.contains tm then
            (if tool = .codex then
              match stageEffortCand cfg profileStageEfforts stageName stagePurpose with
              | some eff =>
                if CODEX_EFFORT_VALUES.contains eff then
                  .ok ⟨stageModel, n, tm, some eff⟩
                else
                  .error (.vmsg ("resolved codex effort " ++ eff ++ " is invalid for stage " ++
                    stageName))
              | none =>
                .error (.vmsg ("resolved codex effort None is invalid for stage " ++ stageName))
            else .ok ⟨stageModel, n, tm, none⟩)
          else
            .error (.vmsg ("resolved timeout_mode " ++ tm ++ " is invalid for stage " ++
              stageName))
        | none =>
          .error (.vmsg ("resolved timeout_mode None is invalid for stage " ++ stageName))
      else
        .error (.vmsg ("servants." ++ tool.tname ++
          ".wrapper_defaults.timeout_ms must be a non-negative integer"))
    | _ =>
      .error (.vmsg ("servants." ++ tool.tname ++
        ".wrapper_defaults.timeout_ms must be a non-negative integer"))

/-- The four per-stage dicts the loop of `resolve_dispatch` fills. -/
structure StageAcc where
  stage_models : List (String × String)
  stage_efforts : List (String × String)
  stage_timeout_ms : List (String × Int)
  stage_timeout_modes : List (String × String)
deriving DecidableEq, Repr

def StageAcc.push (acc : StageAcc) (stageName : String) (r : StageRes) : StageAcc :=
  { stage_models := dinsert acc.stage_models stageName r.model
    stage_efforts :=
      match r.effort with
      | some e => dinsert acc.stage_efforts stageName e
      | none => acc.stage_efforts
    stage_timeout_ms := dinsert acc.stage_timeout_ms stageName r.timeoutMs
    stage_timeout_modes := dinsert acc.stage_timeout_modes stageName r.timeoutMode }

def dispatchStageLoop (cfg : Config) (pipeline : DPipe) (runtimeOptions : List (String × String))
    (rmo psm pse : List (String × String)) (tmo : Option String) :
    List String → StageAcc → Except VErr StageAcc
  | [], acc => .ok acc
  | s :: rest, acc =>
    match resolveStageOne cfg pipeline runtimeOptions rmo psm pse tmo s with
    | .error e => .error e
    | .ok r => dispatchStageLoop cfg pipeline runtimeOptions rmo psm pse tmo rest (acc.push s r)

/-- The resolved dispatch plan record returned by `resolve_dispatch`. -/
structure Plan where
  pipeline_group : String
  intent : String
  profile : String
  flags : List (String × Bool)
  options : List (String × String)
  stage_plan : List String
  tool_models : List (String × String)
  purpose_models : List (String × List (String × String))
  stage_models : List (String × String)
  stage_efforts : List (String × String)
  stage_timeout_ms : List (String × Int)
  stage_timeout_modes : List (String × String)
deriving DecidableEq, Repr

/-- `resolve_dispatch(cfg, manifest, plan_name, intent_default)`. -/
def resolveDispatch (cfg : Config) (manifest : Manifest) (planName intentDefault : String) :
    Except VErr Plan :=
  match resolveDispatchSelect cfg manifest planName intentDefault with
  | .error e => .error e
  | .ok ctx =>
    let routingModelOverrides := manifest.routingD.model
    let stagePlan := applyDispatchFlagFilters ctx.profileRuntime.stages ctx.runtimeFlags
    if stagePlan = [] then .error (.vmsg "resolved dispatch stage plan is empty")
    else
      let toolModels := resolveToolModels cfg manifest
      match resolvePurposeModelsCheck cfg with
      | .error e => .error e
      | .ok () =>
      match resolveCodexPurposeEffortsCheck cfg with
      | .error e => .error e
      | .ok () =>
      let timeoutModeOverride := dlookup ctx.runtimeOptions "timeout_mode"
      match checkTimeoutModeOverride ctx.pipeline timeoutModeOverride with
      | .error e => .error e
      | .ok () =>
      match checkProfileStageModels cfg ctx.profile ctx.profileRuntime.stage_models with
      | .error e => .error e
      | .ok () =>
      match checkProfileStageEfforts cfg ctx.profile ctx.profileRuntime.stage_efforts with
      | .error e => .error e
      | .ok () =>
      match dispatchStageLoop cfg ctx.pipeline ctx.runtimeOptions routingModelOverrides
          ctx.profileRuntime.stage_models ctx.profileRuntime.stage_efforts timeoutModeOverride
          stagePlan ⟨[], [], [], []⟩ with
      | .error e => .error e
      | .ok acc =>
        .ok { pipeline_group := ctx.pipeline.pname
              intent := ctx.requestedIntent
              profile := ctx.profile
              flags := ctx.runtimeFlags
              options := ctx.runtimeOptions
              stage_plan := stagePlan
              tool_models := toolModels
              purpose_models := purposeModelsOut cfg
              stage_models := acc.stage_models
              stage_efforts := acc.stage_efforts
              stage_timeout_ms := acc.stage_timeout_ms
              stage_timeout_modes := acc.stage_timeout_modes }

/-! ## Basic lemmas about the dictionary model -/

theorem dlookup_mem {α : Type} {l : List (String × α)} {k : String} {v : α}
    (h : dlookup l k = some v) : (k, v) ∈ l := by
  induction l with
  | nil => simp [dlookup] at h
  | cons p rest ih =>
    obtain ⟨k1, v1⟩ := p
    by_cases hk : k1 = k
    · subst hk
      simp [dlookup] at h
      subst h
      exact List.mem_cons_self _ _
    · simp [dlookup, hk] at h
      exact List.mem_cons_of_mem _ (ih h)

theorem dlookup_append {α : Type} (l1 l2 : List (String × α)) (k : String) :
    dlookup (l1 ++ l2) k = (dlookup l1 k <|> dlookup l2 k) := by
  induction l1 with
  | nil => simp [dlookup]
  | cons p rest ih =>
    obtain ⟨k1, v1⟩ := p
    by_cases hk : k1 = k
    · simp [dlookup, hk]
    · simp [dlookup, hk, ih]

theorem dlookup_map_override {α : Type} (b o : List (String × α)) (k : String) :
    dlookup (b.map (fun p => (p.1, (dlookup o p.1).getD p.2))) k =
      (dlookup b k).map (fun v => (dlookup o k).getD v) := by
  induction b with
  | nil => simp [dlookup]
  | cons p rest ih =>
    obtain ⟨k1, v1⟩ := p
    by_cases hk : k1 = k
    · subst hk
      simp [dlookup]
    · simp [dlookup, hk, ih]

theorem dlookup_filter_newkeys {α : Type} (b o : List (String × α)) (k : String) :
    dlookup (o.filter (fun p => (dlookup b p.1).isNone)) k =
      (if (dlookup b k).isNone then dlookup o k else none) := by
  induction o with
  | nil => by_cases hb : (dlookup b k).isNone <;> simp [dlookup, hb]
  | cons p rest ih =>
    obtain ⟨k1, v1⟩ := p
    by_cases hb1 : (dlookup b k1).isNone = true
    · rw [List.filter_cons_of_pos (by simpa using hb1)]
      by_cases hk : k1 = k
      · subst hk
        simp [dlookup, hb1]
      · simp [dlookup, hk, ih]
    · rw [List.filter_cons_of_neg (by simpa using hb1)]
      by_cases hk : k1 = k
      · subst hk
        rw [ih]
        simp only [Bool.not_eq_true] at hb1
        simp [hb1]
      · simp [dlookup, hk, ih]

/-- Lookup in a merged dict: the override wins, the base is the fallback. -/
theorem dlookup_mergeDict {α : Type} (b o : List (String × α)) (k : String) :
    dlookup (mergeDict b o) k = (dlookup o k <|> dlookup b k) := by
  unfold mergeDict
  rw [dlookup_append, dlookup_map_override, dlookup_filter_newkeys]
  cases hb : dlookup b k <;> cases ho : dlookup o k <;> simp [hb, ho]

/-- Lookup after the in-place overwrite used by `dinsert` on an existing
key. -/
theorem dlookup_doverwrite {α : Type} (l : List (String × α)) (k k' : String) (v : α) :
    dlookup (doverwrite k v l) k' =
      (if k' = k then (dlookup l k).map (fun _ => v) else dlookup l k') := by
  induction l with
  | nil => by_cases h : k' = k <;> simp [doverwrite, dlookup, h]
  | cons p rest ih =>
    obtain ⟨k1, v1⟩ := p
    by_cases h1 : k1 = k
    · subst h1
      by_cases h2 : k' = k1
      · subst h2
        simp [doverwrite, dlookup]
      · simp [doverwrite, dlookup, h2, Ne.symm h2, ih]
    · by_cases h2 : k' = k1
      · subst h2
        simp [doverwrite, dlookup, h1, Ne.symm h1]
      · by_cases h3 : k' = k
        · subst h3
          simp [doverwrite, dlookup, h1, h2, Ne.symm h2, ih]
        · simp [doverwrite, dlookup, h1, h2, h3, Ne.symm h2, ih]

theorem dlookup_dinsert {α : Type} (l : List (String × α)) (k k' : String) (v : α) :
    dlookup (dinsert l k v) k' = (if k' = k then some v else dlookup l k') := by
  unfold dinsert
  by_cases hs : (dlookup l k).isSome = true
  · rw [if_pos hs, dlookup_doverwrite]
    by_cases h2 : k' = k
    · obtain ⟨w, hw⟩ := Option.isSome_iff_exists.mp hs
      simp [h2, hw]
    · simp [h2]
  · rw [if_neg hs, dlookup_append]
    have hnone : dlookup l k = none := Option.not_isSome_iff_eq_none.mp hs
    by_cases h2 : k' = k
    · subst h2
      simp [hnone, dlookup]
    · rw [show dlookup [(k, v)] k' = none by simp [dlookup, Ne.symm h2]]
      cases h : dlookup l k' <;> simp [h2]


theorem ensureEach_ok {α : Type} {l : List α} {f : α → Except VErr Unit} :
    ensureEach l f = .ok () ↔ ∀ a ∈ l, f a = .ok () := by
  induction l with
  | nil => simp [ensureEach]
  | cons a rest ih =>
    constructor
    · intro h
      unfold ensureEach at h
      cases hfa : f a with
      | error e => rw [hfa] at h; exact absurd h (by simp)
      | ok u =>
        obtain ⟨⟩ := u
        rw [hfa] at h
        intro b hb
        rcases List.mem_cons.mp hb with hb | hb
        · subst hb; exact hfa
        · exact ih.mp h b hb
    · intro h
      unfold ensureEach
      have hfa := h a (List.mem_cons_self _ _)
      rw [hfa]
      exact ih.mpr (fun b hb => h b (List.mem_cons_of_mem _ hb))

theorem ensureEachIdx_ok_mem {α : Type} {l : List α} {i : Nat} {f : Nat → α → Except VErr Unit}
    (h : ensureEachIdx l i f = .ok ()) : ∀ a ∈ l, ∃ j, f j a = .ok () := by
  induction l generalizing i with
  | nil => intro a ha; simp at ha
  | cons a rest ih =>
    intro b hb
    unfold ensureEachIdx at h
    cases hfa : f i a with
    | error e => rw [hfa] at h; exact absurd h (by simp)
    | ok u =>
      obtain ⟨⟩ := u
      rw [hfa] at h
      rcases List.mem_cons.mp hb with hb | hb
      · subst hb; exact ⟨i, hfa⟩
      · exact ih h b hb

theorem sortStrings_ne_nil {l : List String} (h : l ≠ []) : sortStrings l ≠ [] := by
  cases l with
  | nil => exact absurd rfl h
  | cons s rest =>
    show sortStrings.ins s (sortStrings rest) ≠ []
    cases hs : sortStrings rest with
    | nil => simp [sortStrings.ins]
    | cons t trest =>
      simp only [sortStrings.ins]
      by_cases hle : s ≤ t <;> simp [hle]

/-! ## Algebra of the dispatch flag filters -/

theorem filterPair_comm {p q : String → Bool} (l : List String) :
    (l.filter q).filter p = (l.filter p).filter q := by
  induction l with
  | nil => rfl
  | cons a rest ih =>
    by_cases hp : p a <;> by_cases hq : q a <;>
      simp [List.filter_cons, hp, hq, ih]

theorem briefFilter_sublist (flags : List (String × Bool)) (l : List String) :
    (briefFilter flags l).Sublist l := by
  unfold briefFilter
  split
  · exact List.filter_sublist _
  · exact List.Sublist.refl l

theorem verifyFilter_sublist (flags : List (String × Bool)) (l : List String) :
    (verifyFilter flags l).Sublist l := by
  unfold verifyFilter
  split
  · exact List.filter_sublist _
  · exact List.Sublist.refl l

theorem reviewFilter_sublist (flags : List (String × Bool)) (l : List String) :
    (reviewFilter flags l).Sublist l := by
  unfold reviewFilter
  split
  · exact List.filter_sublist _
  · exact List.Sublist.refl l

theorem brief_verify_comm (flags : List (String × Bool)) (l : List String) :
    briefFilter flags (verifyFilter flags l) = verifyFilter flags (briefFilter flags l) := by
  unfold briefFilter verifyFilter
  by_cases hb : dlookup flags "enable_brief" = some false <;>
    by_cases hv : dlookup flags "enable_verify" = some false <;>
    simp only [hb, hv, if_pos, if_neg, ite_true, ite_false, eq_self_iff_true,
      not_false_iff] <;>
    first
      | rfl
      | exact filterPair_comm l

theorem brief_review_comm (flags : List (String × Bool)) (l : List String) :
    briefFilter flags (reviewFilter flags l) = reviewFilter flags (briefFilter flags l) := by
  unfold briefFilter reviewFilter
  by_cases hb : dlookup flags "enable_brief" = some false <;>
    by_cases hr : dlookup flags "enable_review" = some false <;>
    simp only [hb, hr, if_pos, if_neg, ite_true, ite_false, eq_self_iff_true,
      not_false_iff] <;>
    first
      | rfl
      | exact filterPair_comm l

theorem verify_review_comm (flags : List (String × Bool)) (l : List String) :
    verifyFilter flags (reviewFilter flags l) = reviewFilter flags (verifyFilter flags l) := by
  unfold verifyFilter reviewFilter
  by_cases hv : dlookup flags "enable_verify" = some false <;>
    by_cases hr : dlookup flags "enable_review" = some false <;>
    simp only [hv, hr, if_pos, if_neg, ite_true, ite_false, eq_self_iff_true,
      not_false_iff] <;>
    first
      | rfl
      | exact filterPair_comm l

/-- Membership characterization of the composed filter. -/
theorem mem_applyDispatchFlagFilters (flags : List (String × Bool)) (l : List String)
    (s : String) :
    s ∈ applyDispatchFlagFilters l flags ↔
      s ∈ l ∧
      (dlookup flags "enable_brief" = some false → strEndsWith s "_brief" = false) ∧
      (dlookup flags "enable_verify" = some false → strContains (stageRole s) "verify" = false) ∧
      (dlookup flags "enable_review" = some false → strContains (stageRole s) "review" = false) := by
  unfold applyDispatchFlagFilters briefFilter verifyFilter reviewFilter
  by_cases hb : dlookup flags "enable_brief" = some false <;>
    by_cases hv : dlookup flags "enable_verify" = some false <;>
    by_cases hr : dlookup flags "enable_review" = some false <;>
    simp [hb, hv, hr, List.mem_filter, and_assoc, and_comm, and_left_comm]

/-- C6: on stage lists whose stages all contain an underscore, dispatch
flag filtering returns a subsequence of the input, all six application
orders of the three disable-filters agree with `_apply_dispatch_flag_filters`,
and filtering under a larger set of disabled flags yields a subset of the
result under a smaller one (monotonicity: no stage is ever re-added). -/
theorem claim6_flag_filter_algebra (stages : List String) (flags flags' : List (String × Bool))
    (hu : ∀ s ∈ stages, strContains s "_" = true)
    (hb : dlookup flags "enable_brief" = some false → dlookup flags' "enable_brief" = some false)
    (hv : dlookup flags "enable_verify" = some false → dlookup flags' "enable_verify" = some false)
    (hr : dlookup flags "enable_review" = some false → dlookup flags' "enable_review" = some false) :
    (applyDispatchFlagFilters stages flags).Sublist stages ∧
    (briefFilter flags (verifyFilter flags (reviewFilter flags stages)) =
        applyDispatchFlagFilters stages flags ∧
      verifyFilter flags (briefFilter flags (reviewFilter flags stages)) =
        applyDispatchFlagFilters stages flags ∧
      verifyFilter flags (reviewFilter flags (briefFilter flags stages)) =
        applyDispatchFlagFilters stages flags ∧
      briefFilter flags (reviewFilter flags (verifyFilter flags stages)) =
        applyDispatchFlagFilters stages flags ∧
      reviewFilter flags (briefFilter flags (verifyFilter flags stages)) =
        applyDispatchFlagFilters stages flags ∧
      reviewFilter flags (verifyFilter flags (briefFilter flags stages)) =
        applyDispatchFlagFilters stages flags) ∧
    (∀ s ∈ applyDispatchFlagFilters stages flags', s ∈ applyDispatchFlagFilters stages flags) := by
  refine ⟨?_, ⟨?_, ?_, ?_, ?_, ?_, rfl⟩, ?_⟩
  · exact ((reviewFilter_sublist _ _).trans (verifyFilter_sublist _ _)).trans
      (briefFilter_sublist _ _)
  · show briefFilter flags (verifyFilter flags (reviewFilter flags stages)) =
      reviewFilter flags (verifyFilter flags (briefFilter flags stages))
    rw [brief_verify_comm, brief_review_comm, verify_review_comm]
  · show verifyFilter flags (briefFilter flags (reviewFilter flags stages)) =
      reviewFilter flags (verifyFilter flags (briefFilter flags stages))
    rw [brief_review_comm, verify_review_comm]
  · show verifyFilter flags (reviewFilter flags (briefFilter flags stages)) =
      reviewFilter flags (verifyFilter flags (briefFilter flags stages))
    rw [verify_review_comm]
  · show briefFilter flags (reviewFilter flags (verifyFilter flags stages)) =
      reviewFilter flags (verifyFilter flags (briefFilter flags stages))
    rw [brief_review_comm, brief_verify_comm]
  · show reviewFilter flags (briefFilter flags (verifyFilter flags stages)) =
      reviewFilter flags (verifyFilter flags (briefFilter flags stages))
    rw [brief_verify_comm]
  · intro s hs
    have h1 := (mem_applyDispatchFlagFilters flags' stages s).mp hs
    refine (mem_applyDispatchFlagFilters flags stages s).mpr ?_
    exact ⟨h1.1, fun h => h1.2.1 (hb h), fun h => h1.2.2.1 (hv h), fun h => h1.2.2.2 (hr h)⟩

/-- Witness for C6 at a concrete stage list and flag dictionaries. -/
theorem claim6_flag_filter_algebra_witness :
    (applyDispatchFlagFilters ["codex_brief", "codex_verify", "codex_review", "codex_impl"]
        [("enable_brief", false)]).Sublist
      ["codex_brief", "codex_verify", "codex_review", "codex_impl"] ∧
    (∀ s ∈ applyDispatchFlagFilters ["codex_brief", "codex_verify", "codex_review", "codex_impl"]
        [("enable_brief", false), ("enable_verify", false)],
      s ∈ applyDispatchFlagFilters ["codex_brief", "codex_verify", "codex_review", "codex_impl"]
        [("enable_brief", false)]) :=
  ⟨(claim6_flag_filter_algebra
      ["codex_brief", "codex_verify", "codex_review", "codex_impl"]
      [("enable_brief", false)] [("enable_brief", false), ("enable_verify", false)]
      (by decide) (by decide) (by decide) (by decide)).1,
   (claim6_flag_filter_algebra
      ["codex_brief", "codex_verify", "codex_review", "codex_impl"]
      [("enable_brief", false)] [("enable_brief", false), ("enable_verify", false)]
      (by decide) (by decide) (by decide) (by decide)).2.2⟩

/-! ## Concrete fixture configurations -/

def servantCodexA : ServantCfg :=
  { default_model := "gpt"
    allowed_models := ["gpt", "gpt-mini"]
    wrapper_defaults :=
      [("effort", .ystr "high"), ("timeout_ms", .yint 1000), ("timeout_mode", .ystr "enforce")]
    purpose_models := []
    purpose_efforts := [] }

def servantGeminiA : ServantCfg :=
  { default_model := "gem"
    allowed_models := ["gem"]
    wrapper_defaults :=
      [("approval_mode", .ystr "default"), ("sandbox", .ybool true),
       ("timeout_ms", .yint 1000), ("timeout_mode", .ystr "enforce")]
    purpose_models := []
    purpose_efforts := [] }

def servantCopilotA : ServantCfg :=
  { default_model := "cop"
    allowed_models := ["cop"]
    wrapper_defaults := [("timeout_ms", .yint 1000), ("timeout_mode", .ystr "enforce")]
    purpose_models := []
    purpose_efforts := [] }

def profileOf (stages : List String) : ProfileCfg := ⟨stages, [], [], [], []⟩

def cfgA : Config :=
  { codex := servantCodexA
    gemini := servantGeminiA
    copilot := servantCopilotA
    impl :=
      { default_profile := "safe_impl"
        profiles :=
          [("safe_impl", profileOf ["codex_impl"]),
           ("one_shot_impl", profileOf ["codex_runbook"])] }
    review :=
      { default_profile := "codex_only"
        profiles :=
          [("codex_only", profileOf ["codex_review"]),
           ("review_cross", profileOf ["codex_review", "gemini_review"])] }
    plan := { default_profile := "p", profiles := [("p", profileOf [])] } }

/-- A config where, for the stage `codex_impl`, a profile-level stage
model (`m3`), a purpose-table model (`m2`) and the servant default (`m1`)
are all present and pairwise different. -/
def cfgB : Config :=
  { codex :=
      { default_model := "m1"
        allowed_models := ["m1", "m2", "m3", "m4"]
        wrapper_defaults :=
          [("effort", .ystr "high"), ("timeout_ms", .yint 1000),
           ("timeout_mode", .ystr "enforce")]
        purpose_models := [("impl", "m2")]
        purpose_efforts := [] }
    gemini := servantGeminiA
    copilot := servantCopilotA
    impl :=
      { default_profile := "safe_impl"
        profiles :=
          [("safe_impl",
            { stages := ["codex_impl"]
              flags := []
              options := []
              stage_models := [("codex_impl", "m3")]
              stage_efforts := [] }),
           ("one_shot_impl", profileOf ["codex_runbook"])] }
    review :=
      { default_profile := "codex_only"
        profiles := [("codex_only", profileOf ["codex_review"])] }
    plan := { default_profile := "p", profiles := [("p", profileOf [])] } }

/-- Manifest overriding the codex model to `m4`. -/
def manifestB : Manifest := ⟨some ⟨none, [("codex", "m4")], none⟩⟩

/-- Manifest disabling `enable_review`. -/
def manifestC5 : Manifest :=
  ⟨some ⟨none, [], some ⟨none, [("enable_review", false)], []⟩⟩⟩

/-- The empty manifest. -/
def manifestNone : Manifest := ⟨none⟩

/-! ## Claim C5: empty stage plan error -/

/-- C5: whenever `resolve_dispatch` reaches flag filtering (profile
selection, merging and remapping succeeded) and the filtered stage list of
the selected profile is empty, it raises the validation error with message
"resolved dispatch stage plan is empty" and returns no plan. -/
theorem claim5_empty_stage_plan (cfg : Config) (manifest : Manifest)
    (planName intentDefault : String) (ctx : SelectResult)
    (hsel : resolveDispatchSelect cfg manifest planName intentDefault = .ok ctx)
    (hempty : applyDispatchFlagFilters ctx.profileRuntime.stages ctx.runtimeFlags = []) :
    resolveDispatch cfg manifest planName intentDefault =
      .error (.vmsg "resolved dispatch stage plan is empty") := by
  simp only [resolveDispatch, hsel, hempty, ite_true, eq_self_iff_true]

/-- Witness for C5: a review profile whose only stage is `codex_review`,
with a manifest that sets `routing.pipeline.flags.enable_review: false`. -/
theorem claim5_empty_stage_plan_witness :
    resolveDispatch cfgA manifestC5 "codex_only" "safe_impl" =
      .error (.vmsg "resolved dispatch stage plan is empty") := by
  have hsel : resolveDispatchSelect cfgA manifestC5 "codex_only" "safe_impl" =
      .ok ⟨.review, "codex_only", "codex_only", "codex_only",
           ⟨["codex_review"], [], [], [], []⟩, [("enable_review", false)], []⟩ := by decide
  exact claim5_empty_stage_plan cfgA manifestC5 "codex_only" "safe_impl" _ hsel (by decide)

/-! ## Anatomy of a successful dispatch resolution -/

theorem mem_keysOf_of_dlookup {α : Type} {l : List (String × α)} {k : String} {v : α}
    (h : dlookup l k = some v) : k ∈ keysOf l :=
  List.mem_map.mpr ⟨(k, v), dlookup_mem h, rfl⟩

/-- The review pipeline option filter rejects any merged option dict that
carries an `impl_mode` key. -/
theorem checkUnsupportedOptions_review_implMode (opts : List (String × String))
    (hk : "impl_mode" ∈ keysOf opts) (u : Unit) :
    checkUnsupportedOptions .review opts ≠ .ok u := by
  have hmem : "impl_mode" ∈
      ((keysOf opts).filter
        (fun k => !(DISPATCH_ALLOWED_OPTION_KEYS DPipe.review).contains k)).dedup := by
    rw [List.mem_dedup]
    exact List.mem_filter.mpr ⟨hk, by decide⟩
  have hne := sortStrings_ne_nil (List.ne_nil_of_mem hmem)
  simp only [checkUnsupportedOptions]
  rw [if_neg hne]
  simp

/-- What a successful run of the selection phase of `resolve_dispatch`
guarantees: the requested intent, the probed pipeline, the pre-remap
profile, the final profile data and the flag/option merges against it, and
the mode-to-profile remapping equation relative to the pre-remap profile
runtime `pr0`. -/
theorem select_ok_anatomy (cfg : Config) (manifest : Manifest) (planName intentDefault : String)
    (ctx : SelectResult)
    (h : resolveDispatchSelect cfg manifest planName intentDefault = .ok ctx) :
    ctx.requestedIntent = requestedIntentOf manifest planName intentDefault ∧
    findPipelineForProfileName cfg ctx.requestedIntent = some ctx.pipeline ∧
    ctx.preRemapProfile = pyOrS manifest.routingD.pipelineD.profile ctx.requestedIntent ∧
    profileData cfg ctx.pipeline ctx.profile = .ok ctx.profileRuntime ∧
    ctx.runtimeFlags = mergeDict ctx.profileRuntime.flags manifest.routingD.pipelineD.flags ∧
    ctx.runtimeOptions =
      mergeDict ctx.profileRuntime.options manifest.routingD.pipelineD.options ∧
    ∃ pr0,
      profileData cfg ctx.pipeline ctx.preRemapProfile = .ok pr0 ∧
      checkUnsupportedFlags ctx.pipeline
        (mergeDict pr0.flags manifest.routingD.pipelineD.flags) = .ok () ∧
      checkUnsupportedOptions ctx.pipeline
        (mergeDict pr0.options manifest.routingD.pipelineD.options) = .ok () ∧
      ctx.profile =
        remapProfileForMode ctx.pipeline
          (mergeDict pr0.options manifest.routingD.pipelineD.options) ctx.preRemapProfile := by
  simp only [resolveDispatchSelect] at h
  split at h
  · exact absurd h (by simp)
  · rename_i pipeline hfp
    split at h
    · exact absurd h (by simp)
    · rename_i pr0 hpd0
      split at h
      · exact absurd h (by simp)
      · rename_i hflags
        split at h
        · exact absurd h (by simp)
        · rename_i hopts
          split at h
          · rename_i hne
            split at h
            · exact absurd h (by simp)
            · rename_i pr hpd
              cases h
              exact ⟨rfl, hfp, rfl, hpd, rfl, rfl, pr0, hpd0, hflags, hopts, rfl⟩
          · rename_i hne
            cases h
            refine ⟨rfl, hfp, rfl, ?_, rfl, rfl, pr0, hpd0, hflags, hopts, rfl⟩
            rw [not_not.mp hne]
            exact hpd0

/-- What a successful `resolve_dispatch` guarantees: the selection phase
succeeded, the in-resolver checks passed, the stage loop succeeded, and
how the plan record is assembled from them. -/
theorem resolveDispatch_ok_anatomy (cfg : Config) (manifest : Manifest)
    (planName intentDefault : String) (plan : Plan)
    (h : resolveDispatch cfg manifest planName intentDefault = .ok plan) :
    ∃ ctx acc,
      resolveDispatchSelect cfg manifest planName intentDefault = .ok ctx ∧
      resolvePurposeModelsCheck cfg = .ok () ∧
      checkProfileStageModels cfg ctx.profile ctx.profileRuntime.stage_models = .ok () ∧
      dispatchStageLoop cfg ctx.pipeline ctx.runtimeOptions manifest.routingD.model
        ctx.profileRuntime.stage_models ctx.profileRuntime.stage_efforts
        (dlookup ctx.runtimeOptions "timeout_mode")
        (applyDispatchFlagFilters ctx.profileRuntime.stages ctx.runtimeFlags)
        ⟨[], [], [], []⟩ = .ok acc ∧
      plan.pipeline_group = ctx.pipeline.pname ∧
      plan.intent = ctx.requestedIntent ∧
      plan.profile = ctx.profile ∧
      plan.flags = ctx.runtimeFlags ∧
      plan.options = ctx.runtimeOptions ∧
      plan.stage_plan = applyDispatchFlagFilters ctx.profileRuntime.stages ctx.runtimeFlags ∧
      plan.stage_models = acc.stage_models ∧
      plan.stage_timeout_modes = acc.stage_timeout_modes := by
  simp only [resolveDispatch] at h
  split at h
  · exact absurd h (by simp)
  · rename_i ctx hsel
    split at h
    · exact absurd h (by simp)
    · rename_i hplan
      split at h
      · exact absurd h (by simp)
      · rename_i hpm
        split at h
        · exact absurd h (by simp)
        · rename_i hpe
          split at h
          · exact absurd h (by simp)
          · rename_i htm
            split at h
            · exact absurd h (by simp)
            · rename_i hsm
              split at h
              · exact absurd h (by simp)
              · rename_i hse
                split at h
                · exact absurd h (by simp)
                · rename_i acc hloop
                  cases h
                  exact ⟨ctx, acc, hsel, hpm, hsm, hloop, rfl, rfl, rfl, rfl, rfl, rfl,
                    rfl, rfl⟩

/-- Manifest setting `routing.pipeline.options.impl_mode: "one_shot"`. -/
def manifest3 : Manifest :=
  ⟨some ⟨none, [], some ⟨none, [], [("impl_mode", "one_shot")]⟩⟩⟩

/-- C3: when the mode-to-profile remap changes the selected profile, the
final flags and options are the manifest overrides merged onto the newly
selected profile's own defaults (override values preserved, only the base
changes) and the stage list comes from the new profile; in particular a
manifest override `impl_mode = "one_shot"` always yields profile
`one_shot_impl` with flags/options re-merged against its defaults. -/
theorem claim3_remap_remerge (cfg : Config) (manifest : Manifest)
    (planName intentDefault : String) :
    (∀ ctx, resolveDispatchSelect cfg manifest planName intentDefault = .ok ctx →
      ctx.profile ≠ ctx.preRemapProfile →
      profileData cfg ctx.pipeline ctx.profile = .ok ctx.profileRuntime ∧
      ctx.runtimeFlags = mergeDict ctx.profileRuntime.flags manifest.routingD.pipelineD.flags ∧
      ctx.runtimeOptions =
        mergeDict ctx.profileRuntime.options manifest.routingD.pipelineD.options) ∧
    (∀ ctx, resolveDispatchSelect cfg manifest planName intentDefault = .ok ctx →
      dlookup manifest.routingD.pipelineD.options "impl_mode" = some "one_shot" →
      ctx.profile = "one_shot_impl" ∧
      profileData cfg ctx.pipeline "one_shot_impl" = .ok ctx.profileRuntime ∧
      ctx.runtimeFlags = mergeDict ctx.profileRuntime.flags manifest.routingD.pipelineD.flags ∧
      ctx.runtimeOptions =
        mergeDict ctx.profileRuntime.options manifest.routingD.pipelineD.options) ∧
    (∀ plan, resolveDispatch cfg manifest planName intentDefault = .ok plan →
      ∃ ctx, resolveDispatchSelect cfg manifest planName intentDefault = .ok ctx ∧
        plan.profile = ctx.profile ∧
        plan.flags = ctx.runtimeFlags ∧
        plan.options = ctx.runtimeOptions ∧
        plan.stage_plan = applyDispatchFlagFilters ctx.profileRuntime.stages ctx.runtimeFlags) := by
  refine ⟨?_, ?_, ?_⟩
  · intro ctx hsel _hne
    obtain ⟨_, _, _, hpd, hfl, hop, _⟩ :=
      select_ok_anatomy cfg manifest planName intentDefault ctx hsel
    exact ⟨hpd, hfl, hop⟩
  · intro ctx hsel hmode
    obtain ⟨_hri, _hfp, _hpre, hpd, hfl, hop, pr0, hpd0, _hcf, hco, hprofile⟩ :=
      select_ok_anatomy cfg manifest planName intentDefault ctx hsel
    have hlk : dlookup (mergeDict pr0.options manifest.routingD.pipelineD.options)
        "impl_mode" = some "one_shot" := by
      rw [dlookup_mergeDict, hmode]
      rfl
    have hpipe : ctx.pipeline = DPipe.impl := by
      cases hp : ctx.pipeline with
      | impl => rfl
      | review =>
        exfalso
        rw [hp] at hco
        exact checkUnsupportedOptions_review_implMode _ (mem_keysOf_of_dlookup hlk) () hco
    have hprof : ctx.profile = "one_shot_impl" := by
      rw [hprofile, hpipe]
      simp [remapProfileForMode, hlk]
    exact ⟨hprof, hprof ▸ hpd, hfl, hop⟩
  · intro plan hres
    obtain ⟨ctx, acc, hsel, _, _, _, _, _, hprofile, hflags, hopts, hstage, _, _⟩ :=
      resolveDispatch_ok_anatomy cfg manifest planName intentDefault plan hres
    exact ⟨ctx, hsel, hprofile, hflags, hopts, hstage⟩

/-- Witness for C3: on `cfgA` a manifest `impl_mode: one_shot` override
reselects `one_shot_impl` and re-merges against its defaults. -/
theorem claim3_remap_remerge_witness :
    ∃ ctx, resolveDispatchSelect cfgA manifest3 "auto" "safe_impl" = .ok ctx ∧
      ctx.profile = "one_shot_impl" ∧
      profileData cfgA ctx.pipeline "one_shot_impl" = .ok ctx.profileRuntime ∧
      ctx.runtimeFlags = mergeDict ctx.profileRuntime.flags manifest3.routingD.pipelineD.flags ∧
      ctx.runtimeOptions =
        mergeDict ctx.profileRuntime.options manifest3.routingD.pipelineD.options := by
  have hsel : resolveDispatchSelect cfgA manifest3 "auto" "safe_impl" =
      .ok ⟨.impl, "safe_impl", "safe_impl", "one_shot_impl",
           ⟨["codex_runbook"], [], [], [], []⟩, [], [("impl_mode", "one_shot")]⟩ := by decide
  exact ⟨_, hsel,
    (claim3_remap_remerge cfgA manifest3 "auto" "safe_impl").2.1 _ hsel (by decide)⟩

/-- A validated config in which the profile name `safe_impl` is defined in
both the impl and the review pipeline profile maps. -/
def cfgD : Config :=
  { codex := servantCodexA
    gemini := servantGeminiA
    copilot := servantCopilotA
    impl :=
      { default_profile := "safe_impl"
        profiles :=
          [("safe_impl", profileOf ["codex_impl"]),
           ("one_shot_impl", profileOf ["codex_runbook"])] }
    review :=
      { default_profile := "codex_only"
        profiles :=
          [("codex_only", profileOf ["codex_review"]),
           ("safe_impl", profileOf ["codex_review"])] }
    plan := { default_profile := "p", profiles := [("p", profileOf [])] } }

/-- C10: v1 validation accepts a config defining the same profile name in
both stage pipelines (no cross-pipeline uniqueness check exists), and
since profiles are probed in the fixed order impl-then-review, an intent
naming such a profile deterministically selects the impl pipeline, leaving
the review profile of that name unreachable via intent. -/
theorem claim10_impl_shadows_review :
    ((validateRuntimeConfigDict cfgD "config").isOk = true ∧
      (dlookup cfgD.impl.profiles "safe_impl").isSome = true ∧
      (dlookup cfgD.review.profiles "safe_impl").isSome = true) ∧
    (∀ (cfg : Config) (name : String), (dlookup cfg.impl.profiles name).isSome = true →
      findPipelineForProfileName cfg name = some DPipe.impl) ∧
    (∀ (cfg : Config) (manifest : Manifest) (name intentDefault : String) (plan : Plan),
      name ≠ "auto" → (dlookup cfg.impl.profiles name).isSome = true →
      resolveDispatch cfg manifest name intentDefault = .ok plan →
      plan.pipeline_group = "impl") := by
  refine ⟨by decide, ?_, ?_⟩
  · intro cfg name h
    unfold findPipelineForProfileName
    rw [if_pos h]
  · intro cfg manifest name intentDefault plan hname himpl hres
    obtain ⟨ctx, acc, hsel, _, _, _, hpg, _⟩ :=
      resolveDispatch_ok_anatomy cfg manifest name intentDefault plan hres
    obtain ⟨hri, hfp, _⟩ := select_ok_anatomy cfg manifest name intentDefault ctx hsel
    have hri' : ctx.requestedIntent = name := by
      rw [hri]
      unfold requestedIntentOf
      rw [if_pos hname]
    have hfind : findPipelineForProfileName cfg name = some DPipe.impl := by
      unfold findPipelineForProfileName
      rw [if_pos himpl]
    rw [hri', hfind] at hfp
    have hpipe : ctx.pipeline = DPipe.impl := by
      injection hfp with h
      exact h.symm
    rw [hpg, hpipe]
    rfl

/-- Witness for C10 on `cfgD` with intent `safe_impl`. -/
theorem claim10_impl_shadows_review_witness :
    findPipelineForProfileName cfgD "safe_impl" = some DPipe.impl ∧
    (resolveDispatch cfgD manifestNone "safe_impl" "safe_impl").map Plan.pipeline_group =
      .ok "impl" := by
  constructor
  · exact claim10_impl_shadows_review.2.1 cfgD "safe_impl" (by decide)
  · cases hres : resolveDispatch cfgD manifestNone "safe_impl" "safe_impl" with
    | error e =>
      have hok : (resolveDispatch cfgD manifestNone "safe_impl" "safe_impl").isOk = true := by
        decide
      rw [hres] at hok
      exact absurd hok (by simp [Except.isOk, Except.toBool])
    | ok plan =>
      have := claim10_impl_shadows_review.2.2 cfgD manifestNone "safe_impl" "safe_impl" plan
        (by decide) (by decide) hres
      simp [Except.map, this]

/-! ## Properties of the stage loop -/

theorem resolveStageOne_ok_parts (cfg : Config) (pipeline : DPipe)
    (ro : List (String × String)) (rmo psm pse : List (String × String))
    (tmo : Option String) (s : String) (r : StageRes)
    (h : resolveStageOne cfg pipeline ro rmo psm pse tmo s = .ok r) :
    ∃ t, stageTool s = .ok t ∧
      TIMEOUT_MODE_VALUES.contains r.timeoutMode = true ∧
      r.model = stageModelOf cfg t s (dispatchStagePurpose s pipeline ro) rmo psm := by
  simp only [resolveStageOne] at h
  split at h
  · exact absurd h (by simp)
  · rename_i t ht
    split at h
    · rename_i n hms
      split at h
      · split at h
        · rename_i tm htm
          split at h
          · rename_i hcontains
            split at h
            · split at h
              · rename_i eff heff
                split at h
                · cases h
                  exact ⟨t, ht, by simpa using hcontains, rfl⟩
                · exact absurd h (by simp)
              · exact absurd h (by simp)
            · cases h
              exact ⟨t, ht, by simpa using hcontains, rfl⟩
          · exact absurd h (by simp)
        · exact absurd h (by simp)
      · exact absurd h (by simp)
    · exact absurd h (by simp)

theorem stageLoop_preserves (cfg : Config) (pipeline : DPipe)
    (ro rmo psm pse : List (String × String)) (tmo : Option String) :
    ∀ (l : List String) (acc acc' : StageAcc),
      dispatchStageLoop cfg pipeline ro rmo psm pse tmo l acc = .ok acc' →
      ∀ s, ((dlookup acc.stage_models s).isSome = true →
              (dlookup acc'.stage_models s).isSome = true) ∧
           ((dlookup acc.stage_timeout_modes s).isSome = true →
              (dlookup acc'.stage_timeout_modes s).isSome = true) := by
  intro l
  induction l with
  | nil =>
    intro acc acc' h s
    unfold dispatchStageLoop at h
    cases h
    exact ⟨id, id⟩
  | cons a rest ih =>
    intro acc acc' h s
    unfold dispatchStageLoop at h
    cases hr : resolveStageOne cfg pipeline ro rmo psm pse tmo a with
    | error e => rw [hr] at h; exact absurd h (by simp)
    | ok r =>
      rw [hr] at h
      have hstep := ih (acc.push a r) acc' h s
      constructor
      · intro hsome
        refine hstep.1 ?_
        show (dlookup (dinsert acc.stage_models a r.model) s).isSome = true
        rw [dlookup_dinsert]
        split
        · rfl
        · exact hsome
      · intro hsome
        refine hstep.2 ?_
        show (dlookup (dinsert acc.stage_timeout_modes a r.timeoutMode) s).isSome = true
        rw [dlookup_dinsert]
        split
        · rfl
        · exact hsome

theorem stageLoop_complete (cfg : Config) (pipeline : DPipe)
    (ro rmo psm pse : List (String × String)) (tmo : Option String) :
    ∀ (l : List String) (acc acc' : StageAcc),
      dispatchStageLoop cfg pipeline ro rmo psm pse tmo l acc = .ok acc' →
      ∀ s ∈ l, (dlookup acc'.stage_models s).isSome = true ∧
        (dlookup acc'.stage_timeout_modes s).isSome = true := by
  intro l
  induction l with
  | nil => intro acc acc' _ s hs; simp at hs
  | cons a rest ih =>
    intro acc acc' h s hs
    unfold dispatchStageLoop at h
    cases hr : resolveStageOne cfg pipeline ro rmo psm pse tmo a with
    | error e => rw [hr] at h; exact absurd h (by simp)
    | ok r =>
      rw [hr] at h
      rcases List.mem_cons.mp hs with hs | hs
      · subst hs
        have hpres := stageLoop_preserves cfg pipeline ro rmo psm pse tmo rest
          (acc.push s r) acc' h s
        constructor
        · refine hpres.1 ?_
          show (dlookup (dinsert acc.stage_models s r.model) s).isSome = true
          rw [dlookup_dinsert]
          simp
        · refine hpres.2 ?_
          show (dlookup (dinsert acc.stage_timeout_modes s r.timeoutMode) s).isSome = true
          rw [dlookup_dinsert]
          simp
      · exact ih (acc.push a r) acc' h s hs

theorem stageLoop_sound (cfg : Config) (pipeline : DPipe)
    (ro rmo psm pse : List (String × String)) (tmo : Option String) :
    ∀ (l : List String) (acc acc' : StageAcc),
      dispatchStageLoop cfg pipeline ro rmo psm pse tmo l acc = .ok acc' →
      ∀ s,
        (∀ m, dlookup acc'.stage_models s = some m →
          dlookup acc.stage_models s = some m ∨
          ∃ r, resolveStageOne cfg pipeline ro rmo psm pse tmo s = .ok r ∧ r.model = m) ∧
        (∀ m, dlookup acc'.stage_timeout_modes s = some m →
          dlookup acc.stage_timeout_modes s = some m ∨
          ∃ r, resolveStageOne cfg pipeline ro rmo psm pse tmo s = .ok r ∧
            r.timeoutMode = m) := by
  intro l
  induction l with
  | nil =>
    intro acc acc' h s
    unfold dispatchStageLoop at h
    cases h
    exact ⟨fun m hm => Or.inl hm, fun m hm => Or.inl hm⟩
  | cons a rest ih =>
    intro acc acc' h s
    unfold dispatchStageLoop at h
    cases hr : resolveStageOne cfg pipeline ro rmo psm pse tmo a with
    | error e => rw [hr] at h; exact absurd h (by simp)
    | ok r =>
      rw [hr] at h
      have hstep := ih (acc.push a r) acc' h s
      constructor
      · intro m hm
        rcases hstep.1 m hm with hpush | hres
        · rw [show (StageAcc.push acc a r).stage_models = dinsert acc.stage_models a r.model
              from rfl, dlookup_dinsert] at hpush
          by_cases hsa : s = a
          · subst hsa
            rw [if_pos rfl] at hpush
            exact Or.inr ⟨r, hr, Option.some.injEq _ _ ▸ hpush⟩
          · rw [if_neg hsa] at hpush
            exact Or.inl hpush
        · exact Or.inr hres
      · intro m hm
        rcases hstep.2 m hm with hpush | hres
        · rw [show (StageAcc.push acc a r).stage_timeout_modes =
              dinsert acc.stage_timeout_modes a r.timeoutMode from rfl,
            dlookup_dinsert] at hpush
          by_cases hsa : s = a
          · subst hsa
            rw [if_pos rfl] at hpush
            exact Or.inr ⟨r, hr, Option.some.injEq _ _ ▸ hpush⟩
          · rw [if_neg hsa] at hpush
            exact Or.inl hpush
        · exact Or.inr hres

/-! ## Facts extracted from successful validation -/

theorem toolOfString_tname (t : Tool) : toolOfString t.tname = some t := by
  cases t <;> rfl

theorem validateServantNode_ok_default_mem (cfgPath : String) (t : Tool) (node : ServantCfg)
    (h : validateServantNode cfgPath t node = .ok ()) :
    node.default_model ∈ node.allowed_models := by
  simp only [validateServantNode] at h
  split at h
  · exact absurd h (by simp)
  · split at h
    · exact absurd h (by simp)
    · split at h
      · exact absurd h (by simp)
      · rename_i hc
        simpa using not_not.mp hc

theorem validateRuntimeConfigDict_ok_servants (cfg : Config) (cfgPath : String) (cfg2 : Config)
    (h : validateRuntimeConfigDict cfg cfgPath = .ok cfg2) (t : Tool) :
    validateServantNode cfgPath t (cfg.servant t) = .ok () := by
  simp only [validateRuntimeConfigDict] at h
  split at h
  · exact absurd h (by simp)
  · rename_i hcodex
    split at h
    · exact absurd h (by simp)
    · rename_i hgemini
      split at h
      · exact absurd h (by simp)
      · rename_i hcopilot
        cases t
        · exact hcodex
        · exact hgemini
        · exact hcopilot

theorem validateManifestExtensions_ok_models (cfg : Config) (manifest : Manifest) (mp : String)
    (h : validateManifestExtensions cfg manifest mp = .ok ()) :
    ∀ v, ∀ t : Tool, dlookup manifest.routingD.model t.tname = some v →
      v ∈ (cfg.servant t).allowed_models := by
  intro v t hkv
  cases hro : manifest.routing with
  | none =>
    rw [show manifest.routingD = emptyRouting by
      unfold Manifest.routingD; rw [hro]; rfl] at hkv
    simp [emptyRouting, dlookup] at hkv
  | some routing =>
    have hmodel : manifest.routingD.model = routing.model := by
      unfold Manifest.routingD
      rw [hro]
      rfl
    rw [hmodel] at hkv
    simp only [validateManifestExtensions, hro] at h
    have hne : routing.model ≠ [] := List.ne_nil_of_mem (dlookup_mem hkv)
    rw [if_pos hne] at h
    split at h
    · exact absurd h (by simp)
    · rename_i x hmc
      split at hmc
      · exact absurd hmc (by simp)
      · have hf := ensureEach_ok.mp hmc (t.tname, v) (dlookup_mem hkv)
        simp only at hf
        by_cases hb : strIsBlank v = true
        · rw [if_pos hb] at hf
          exact absurd hf (by simp)
        · rw [if_neg hb] at hf
          simp only [toolOfString_tname] at hf
          by_cases hc : (cfg.servant t).allowed_models.contains v = true
          · simpa using hc
          · rw [if_pos hc] at hf
            exact absurd hf (by simp)

theorem checkProfileStageModels_ok (cfg : Config) (sel : String)
    (sm : List (String × String)) (h : checkProfileStageModels cfg sel sm = .ok ()) :
    ∀ s m, dlookup sm s = some m → ∀ t, stageTool s = .ok t →
      m ∈ (cfg.servant t).allowed_models := by
  intro s m hl t ht
  have hf := ensureEach_ok.mp h (s, m) (dlookup_mem hl)
  simp only [ht] at hf
  by_cases hc : (cfg.servant t).allowed_models.contains m = true
  · simpa using hc
  · rw [if_pos hc] at hf
    exact absurd hf (by simp)

theorem resolvePurposeModelsCheck_ok (cfg : Config)
    (h : resolvePurposeModelsCheck cfg = .ok ()) (t : Tool) :
    ∀ p m, dlookup (cfg.servant t).purpose_models p = some m →
      m ∈ (cfg.servant t).allowed_models := by
  have hchk : checkPurposeModelsFor cfg t = .ok () := by
    simp only [resolvePurposeModelsCheck] at h
    split at h
    · exact absurd h (by simp)
    · rename_i hc
      split at h
      · exact absurd h (by simp)
      · rename_i hg
        cases t
        · exact hc
        · exact hg
        · exact h
  intro p m hl
  have hf := ensureEach_ok.mp hchk (p, m) (dlookup_mem hl)
  simp only at hf
  by_cases h1 : PURPOSE_NAMES.contains p = true
  · rw [if_neg (not_not_intro h1)] at hf
    by_cases h2 : (cfg.servant t).allowed_models.contains m = true
    · simpa using h2
    · rw [if_pos h2] at hf
      exact absurd hf (by simp)
  · rw [if_pos h1] at hf
    exact absurd hf (by simp)

theorem stageModelOf_allowed (cfg : Config) (t : Tool) (sn sp : String)
    (rmo psm : List (String × String))
    (h1 : ∀ v, dlookup rmo t.tname = some v → v ∈ (cfg.servant t).allowed_models)
    (h2 : ∀ m, dlookup psm sn = some m → m ∈ (cfg.servant t).allowed_models)
    (h3 : ∀ p m, dlookup (cfg.servant t).purpose_models p = some m →
      m ∈ (cfg.servant t).allowed_models)
    (h4 : (cfg.servant t).default_model ∈ (cfg.servant t).allowed_models) :
    stageModelOf cfg t sn sp rmo psm ∈ (cfg.servant t).allowed_models := by
  cases ha : dlookup rmo t.tname with
  | some v =>
    simp only [stageModelOf, ha]
    exact h1 v ha
  | none =>
    cases hb : dlookup psm sn with
    | some m =>
      simp only [stageModelOf, ha, hb]
      exact h2 m hb
    | none =>
      cases hc : dlookup (cfg.servant t).purpose_models sp with
      | some m =>
        simp only [stageModelOf, ha, hb, hc]
        exact h3 sp m hc
      | none =>
        simp only [stageModelOf, ha, hb, hc]
        exact h4

/-! ## Claims C1 and C2 -/

theorem stageModelOf_override (cfg : Config) (t : Tool) (sn sp : String)
    (rmo psm : List (String × String)) (M : String)
    (h : dlookup rmo t.tname = some M) :
    stageModelOf cfg t sn sp rmo psm = M := by
  simp only [stageModelOf, h]

/-- C1: for every config accepted by `validate_runtime_config_dict` and
manifest accepted by `validate_manifest_extensions`, a successful
`resolve_dispatch` assigns every stage of the final stage plan a model in
that stage servant allowed-model set and a timeout mode in
{enforce, wait_done}. -/
theorem claim1_dispatch_plan_wellformed (cfg : Config) (manifest : Manifest)
    (planName intentDefault cfgPath manifestPath : String) (plan : Plan)
    (hv : validateRuntimeConfigDict cfg cfgPath = .ok cfg)
    (hm : validateManifestExtensions cfg manifest manifestPath = .ok ())
    (hr : resolveDispatch cfg manifest planName intentDefault = .ok plan) :
    ∀ s ∈ plan.stage_plan, ∃ t m tm,
      stageTool s = .ok t ∧
      dlookup plan.stage_models s = some m ∧
      m ∈ (cfg.servant t).allowed_models ∧
      dlookup plan.stage_timeout_modes s = some tm ∧
      (tm = "enforce" ∨ tm = "wait_done") := by
  obtain ⟨ctx, acc, hsel, hpm, hsm, hloop, _, _, _, _, _, hstage, hmods, htms⟩ :=
    resolveDispatch_ok_anatomy cfg manifest planName intentDefault plan hr
  intro s hs
  rw [hstage] at hs
  have hcomp := stageLoop_complete cfg ctx.pipeline ctx.runtimeOptions manifest.routingD.model
    ctx.profileRuntime.stage_models ctx.profileRuntime.stage_efforts
    (dlookup ctx.runtimeOptions "timeout_mode") _ _ _ hloop s hs
  obtain ⟨m, hm1⟩ := Option.isSome_iff_exists.mp hcomp.1
  obtain ⟨tm, htm1⟩ := Option.isSome_iff_exists.mp hcomp.2
  have hsound := stageLoop_sound cfg ctx.pipeline ctx.runtimeOptions manifest.routingD.model
    ctx.profileRuntime.stage_models ctx.profileRuntime.stage_efforts
    (dlookup ctx.runtimeOptions "timeout_mode") _ _ _ hloop s
  rcases hsound.1 m hm1 with habs | ⟨r, hrok, hrm⟩
  · simp [dlookup] at habs
  rcases hsound.2 tm htm1 with habs | ⟨r2, hrok2, hrtm⟩
  · simp [dlookup] at habs
  have hrr : r2 = r := by
    rw [hrok] at hrok2
    exact (Except.ok.injEq _ _ ▸ hrok2).symm
  obtain ⟨t, ht, hcontains, hmodel⟩ := resolveStageOne_ok_parts _ _ _ _ _ _ _ _ _ hrok
  refine ⟨t, m, tm, ht, by rw [hmods]; exact hm1, ?_, by rw [htms]; exact htm1, ?_⟩
  · rw [← hrm, hmodel]
    apply stageModelOf_allowed
    · intro v hvv
      exact validateManifestExtensions_ok_models cfg manifest manifestPath hm v t hvv
    · intro m' hm'
      exact checkProfileStageModels_ok cfg ctx.profile ctx.profileRuntime.stage_models hsm
        s m' hm' t ht
    · intro p m' hm'
      exact resolvePurposeModelsCheck_ok cfg hpm t p m' hm'
    · exact validateServantNode_ok_default_mem cfgPath t (cfg.servant t)
        (validateRuntimeConfigDict_ok_servants cfg cfgPath cfg hv t)
  · have hmem : r.timeoutMode ∈ TIMEOUT_MODE_VALUES := by simpa using hcontains
    have htm2 : tm = r.timeoutMode := by rw [← hrtm, hrr]
    rw [htm2]
    simpa [TIMEOUT_MODE_VALUES] using hmem

/-- Witness for C1 on the concrete config `cfgB` and manifest `manifestB`. -/
theorem claim1_dispatch_plan_wellformed_witness :
    ∃ plan, resolveDispatch cfgB manifestB "auto" "safe_impl" = .ok plan ∧
      ∃ t m tm, stageTool "codex_impl" = .ok t ∧
        dlookup plan.stage_models "codex_impl" = some m ∧
        m ∈ (cfgB.servant t).allowed_models ∧
        dlookup plan.stage_timeout_modes "codex_impl" = some tm ∧
        (tm = "enforce" ∨ tm = "wait_done") := by
  cases hres : resolveDispatch cfgB manifestB "auto" "safe_impl" with
  | error e =>
    have hok : (resolveDispatch cfgB manifestB "auto" "safe_impl").isOk = true := by decide
    rw [hres] at hok
    exact absurd hok (by simp [Except.isOk, Except.toBool])
  | ok plan =>
    have hsp : plan.stage_plan = ["codex_impl"] := by
      have hmap : (resolveDispatch cfgB manifestB "auto" "safe_impl").map Plan.stage_plan =
          .ok ["codex_impl"] := by decide
      rw [hres] at hmap
      simpa [Except.map] using hmap
    refine ⟨plan, rfl, ?_⟩
    exact claim1_dispatch_plan_wellformed cfgB manifestB "auto" "safe_impl" "config" "manifest"
      plan (by rfl) (by rfl) hres "codex_impl" (by rw [hsp]; exact List.mem_singleton.mpr rfl)

/-- C2: a task-manifest per-servant model override beats every other model
source: whenever the validated manifest routing.model map assigns model
`M` to servant `T`, every stage of a successfully resolved dispatch plan
whose servant is `T` is assigned model `M`. -/
theorem claim2_manifest_model_precedence (cfg : Config) (manifest : Manifest)
    (planName intentDefault cfgPath manifestPath : String) (plan : Plan) (T : Tool) (M : String)
    (hv : validateRuntimeConfigDict cfg cfgPath = .ok cfg)
    (hm : validateManifestExtensions cfg manifest manifestPath = .ok ())
    (hM : dlookup manifest.routingD.model T.tname = some M)
    (hr : resolveDispatch cfg manifest planName intentDefault = .ok plan) :
    ∀ s ∈ plan.stage_plan, stageTool s = .ok T → dlookup plan.stage_models s = some M := by
  obtain ⟨ctx, acc, hsel, hpm, hsm, hloop, _, _, _, _, _, hstage, hmods, htms⟩ :=
    resolveDispatch_ok_anatomy cfg manifest planName intentDefault plan hr
  intro s hs hT
  rw [hstage] at hs
  have hcomp := stageLoop_complete cfg ctx.pipeline ctx.runtimeOptions manifest.routingD.model
    ctx.profileRuntime.stage_models ctx.profileRuntime.stage_efforts
    (dlookup ctx.runtimeOptions "timeout_mode") _ _ _ hloop s hs
  obtain ⟨m, hm1⟩ := Option.isSome_iff_exists.mp hcomp.1
  have hsound := stageLoop_sound cfg ctx.pipeline ctx.runtimeOptions manifest.routingD.model
    ctx.profileRuntime.stage_models ctx.profileRuntime.stage_efforts
    (dlookup ctx.runtimeOptions "timeout_mode") _ _ _ hloop s
  rcases hsound.1 m hm1 with habs | ⟨r, hrok, hrm⟩
  · simp [dlookup] at habs
  obtain ⟨t, ht, _, hmodel⟩ := resolveStageOne_ok_parts _ _ _ _ _ _ _ _ _ hrok
  have htT : t = T := by
    rw [ht] at hT
    exact Except.ok.injEq _ _ ▸ hT
  rw [hmods, hm1]
  congr 1
  rw [← hrm, hmodel, htT]
  exact stageModelOf_override cfg T s _ _ _ _ hM

/-- Witness for C2 on `cfgB`/`manifestB`: the manifest override `m4` wins
over the simultaneously present and pairwise different profile stage
model `m3`, purpose-table model `m2` and servant default `m1`. -/
theorem claim2_manifest_model_precedence_witness :
    dlookup manifestB.routingD.model "codex" = some "m4" ∧
    (∃ pr, dlookup cfgB.impl.profiles "safe_impl" = some pr ∧
      dlookup pr.stage_models "codex_impl" = some "m3") ∧
    dlookup cfgB.codex.purpose_models "impl" = some "m2" ∧
    cfgB.codex.default_model = "m1" ∧
    (("m4" : String) ≠ "m3" ∧ ("m4" : String) ≠ "m2" ∧ ("m4" : String) ≠ "m1") ∧
    (resolveDispatch cfgB manifestB "auto" "safe_impl").map
      (fun p => dlookup p.stage_models "codex_impl") = .ok (some "m4") := by
  refine ⟨by decide, ⟨⟨["codex_impl"], [], [], [("codex_impl", "m3")], []⟩,
    by decide, by decide⟩, by decide, by decide, by decide, ?_⟩
  cases hres : resolveDispatch cfgB manifestB "auto" "safe_impl" with
  | error e =>
    have hok : (resolveDispatch cfgB manifestB "auto" "safe_impl").isOk = true := by decide
    rw [hres] at hok
    exact absurd hok (by simp [Except.isOk, Except.toBool])
  | ok plan =>
    have hsp : plan.stage_plan = ["codex_impl"] := by
      have hmap : (resolveDispatch cfgB manifestB "auto" "safe_impl").map Plan.stage_plan =
          .ok ["codex_impl"] := by decide
      rw [hres] at hmap
      simpa [Except.map] using hmap
    have := claim2_manifest_model_precedence cfgB manifestB "auto" "safe_impl" "config"
      "manifest" plan Tool.codex "m4" (by rfl) (by rfl) (by decide) hres "codex_impl"
      (by rw [hsp]; exact List.mem_singleton.mpr rfl) (by decide)
    simp [Except.map, this]

/-! ## Typed v2 data model and skill validation (`config_validate_v2.py`) -/

def TOOLS : List String := ["codex", "gemini", "copilot"]

def V2_PHASES : List String := ["plan", "impl", "review"]

def WEB_RESEARCH_MODES : List String := ["off", "codex_explicit", "gemini_auto", "copilot_mcp"]

def DEFAULT_MODES : List String := ["normal", "analysis_only"]

def GATE_PROFILES : List String := ["standard", "strict", "minimal", "finding-first"]

/-- `TOOL_WEB_MODE_MAP` (a dict keyed by the three tools; other keys would
be a Python `KeyError`, but every access is guarded by a `TOOLS`
membership check). -/
def TOOL_WEB_MODE_MAP (tool : String) : List String :=
  if tool = "codex" then ["off", "codex_explicit"]
  else if tool = "gemini" then ["off", "gemini_auto"]
  else if tool = "copilot" then ["off", "copilot_mcp"]
  else []

structure MethodNode where
  enabled : Bool
  steps : List String
  allowed_tools : List String
  gate_profile : String
deriving DecidableEq, Repr

/-- A `step_defaults` entry; the `description` key is allowed but never
validated. -/
structure StepDefaultNode where
  default_tool : String
  default_mode : String
  web_research_mode : String
  description : Option Yaml

structure SkillFile where
  version : Int
  skill : String
  default_method_ids : List String
  methods : List (String × MethodNode)
  step_defaults : List (String × StepDefaultNode)

/-- `_expect_string_list(value, path, non_empty)` on an already typed
string list. -/
def expectStringList (value : List String) (path : String) (nonEmpty : Bool) :
    Except VErr Unit :=
  match ensureEachIdx value 0 (fun i item =>
    if strIsBlank item then
      .error (.vdie (path ++ "[" ++ toString i ++ "]") "must be a non-empty string")
    else .ok ()) with
  | .error e => .error e
  | .ok () =>
    if nonEmpty ∧ value = [] then .error (.vdie path "must not be empty") else .ok ()

/-- `_validate_step_default(path, step_node)`. -/
def validateStepDefault (path : String) (node : StepDefaultNode) : Except VErr Unit :=
  if strIsBlank node.default_tool then
    .error (.vdie (path ++ ".default_tool") "must be a non-empty string")
  else if ¬ TOOLS.contains node.default_tool then
    .error (.vdie (path ++ ".default_tool") (mustBeOneOf TOOLS))
  else if strIsBlank node.default_mode then
    .error (.vdie (path ++ ".default_mode") "must be a non-empty string")
  else if ¬ DEFAULT_MODES.contains node.default_mode then
    .error (.vdie (path ++ ".default_mode") (mustBeOneOf DEFAULT_MODES))
  else if strIsBlank node.web_research_mode then
    .error (.vdie (path ++ ".web_research_mode") "must be a non-empty string")
  else if ¬ WEB_RESEARCH_MODES.contains node.web_research_mode then
    .error (.vdie (path ++ ".web_research_mode") (mustBeOneOf WEB_RESEARCH_MODES))
  else if node.web_research_mode ≠ "off" ∧
      ¬ (TOOL_WEB_MODE_MAP node.default_tool).contains node.web_research_mode then
    .error (.vdie (path ++ ".web_research_mode")
      (node.web_research_mode ++ " is not compatible with default_tool " ++ node.default_tool))
  else .ok ()

/-- The per-method checks of `_validate_skill_file` (its
`for method_id, method_node in methods.items()` loop body). -/
def validateMethodNode (methodPath : String) (node : MethodNode) : Except VErr Unit :=
  match expectStringList node.steps (methodPath ++ ".steps") true with
  | .error e => .error e
  | .ok () =>
  match expectStringList node.allowed_tools (methodPath ++ ".allowed_tools") true with
  | .error e => .error e
  | .ok () =>
  match ensureEachIdx node.allowed_tools 0 (fun idx tool =>
      if ¬ TOOLS.contains tool then
        .error (.vdie (methodPath ++ ".allowed_tools[" ++ toString idx ++ "]")
          (mustBeOneOf TOOLS))
      else .ok ()) with
  | .error e => .error e
  | .ok () =>
  if strIsBlank node.gate_profile then
    .error (.vdie (methodPath ++ ".gate_profile") "must be a non-empty string")
  else if ¬ GATE_PROFILES.contains node.gate_profile then
    .error (.vdie (methodPath ++ ".gate_profile") (mustBeOneOf GATE_PROFILES))
  else if node.enabled ∧ node.steps = [] then
    .error (.vdie (methodPath ++ ".steps") "enabled method must have at least one step")
  else .ok ()

/-- The `all_method_steps` set of `_validate_skill_file`, as the list of
all steps of all methods (enabled or disabled). -/
def allMethodSteps (methods : List (String × MethodNode)) : List String :=
  methods.foldl (fun acc p => acc ++ p.2.steps) []

/-- `_validate_skill_file(node, skill, path)`, in source order. -/
def validateSkillFile (node : SkillFile) (skill path : String) : Except VErr Unit :=
  if node.version ≠ 2 then .error (.vdie (path ++ ".version") "must be 2")
  else if node.skill ≠ skill then .error (.vdie (path ++ ".skill") ("must be " ++ skill))
  else
  match expectStringList node.default_method_ids (path ++ ".default_method_ids") true with
  | .error e => .error e
  | .ok () =>
  if node.methods = [] then
    .error (.vdie (path ++ ".methods") "must define at least one method")
  else
  match ensureEach node.methods
      (fun p => validateMethodNode (path ++ ".methods." ++ p.1) p.2) with
  | .error e => .error e
  | .ok () =>
  match ensureEachIdx node.default_method_ids 0 (fun idx mid =>
      if (dlookup node.methods mid).isNone then
        .error (.vdie (path ++ ".default_method_ids[" ++ toString idx ++ "]")
          "must reference a method defined in methods")
      else .ok ()) with
  | .error e => .error e
  | .ok () =>
  if node.step_defaults.isEmpty then
    .error (.vdie (path ++ ".step_defaults") "must define at least one step default")
  else
  match ensureEach node.methods (fun p =>
      ensureEach p.2.steps (fun step =>
        if (dlookup node.step_defaults step).isNone then
          .error (.vdie (path ++ ".methods." ++ p.1 ++ ".steps")
            ("step " ++ step ++ " missing from step_defaults"))
        else .ok ())) with
  | .error e => .error e
  | .ok () =>
  match ensureEach node.step_defaults (fun p =>
      if ¬ (allMethodSteps node.methods).contains p.1 then
        .error (.vdie (path ++ ".step_defaults." ++ p.1)
          "step is not referenced by any method")
      else .ok ()) with
  | .error e => .error e
  | .ok () =>
  ensureEach node.step_defaults (fun p =>
    validateStepDefault (path ++ ".step_defaults." ++ p.1) p.2)

/-- `_resolve_selected_method` from `config_resolve_v2.py` for a given
phase skill config, manifest-override method id, and runtime method id. -/
def resolveSelectedMethod (phaseCfg : SkillFile) (phase : String)
    (manifestMethodId runtimeMethodId : Option String) : Except VErr String :=
  match phaseCfg.default_method_ids with
  | [] => .error (.vmsg ("skills." ++ phase ++ ".default_method_ids must not be empty"))
  | d0 :: _ =>
    let sel1 :=
      match manifestMethodId with
      | some s => if s = "" then d0 else s
      | none => d0
    let sel :=
      match runtimeMethodId with
      | some s => if s = "" then sel1 else s
      | none => sel1
    match dlookup phaseCfg.methods sel with
    | none =>
      .error (.vmsg ("resolved method_id " ++ sel ++ " is not defined in skills." ++
        phase ++ ".methods"))
    | some mn =>
      if mn.enabled then .ok sel
      else .error (.vmsg ("resolved method_id " ++ sel ++ " is disabled"))

/-- The method-id precedence exactly as the spec describes it: first
default, overridden by a present manifest method id, overridden again by
a present runtime method id (stated from the spec for comparison with the
code). -/
def selectedMethodIdSpec (d0 : String) (manifestMethodId runtimeMethodId : Option String) :
    String :=
  match runtimeMethodId with
  | some s => s
  | none =>
    match manifestMethodId with
    | some s => s
    | none => d0

/-! ## Claims C9 and C8 -/

theorem mem_allMethodSteps {methods : List (String × MethodNode)} {s : String} :
    s ∈ allMethodSteps methods ↔ ∃ p ∈ methods, s ∈ p.2.steps := by
  have haux : ∀ (ms : List (String × MethodNode)) (acc : List String),
      s ∈ ms.foldl (fun acc p => acc ++ p.2.steps) acc ↔
        s ∈ acc ∨ ∃ p ∈ ms, s ∈ p.2.steps := by
    intro ms
    induction ms with
    | nil => intro acc; simp
    | cons q rest ih =>
      intro acc
      rw [List.foldl_cons, ih]
      simp only [List.mem_append, List.mem_cons]
      constructor
      · rintro (⟨hacc | hq⟩ | ⟨p, hp, hs⟩)
        · exact Or.inl hacc
        · exact Or.inr ⟨q, Or.inl rfl, hq⟩
        · exact Or.inr ⟨p, Or.inr hp, hs⟩
      · rintro (hacc | ⟨p, hp | hp, hs⟩)
        · exact Or.inl (Or.inl hacc)
        · exact Or.inl (Or.inr (hp ▸ hs))
        · exact Or.inr ⟨p, hp, hs⟩
  simpa using haux methods []

/-- C9: a v2 skill file accepted by `_validate_skill_file` has bijective
step coverage: the steps referenced by the methods of the phase (enabled
or disabled alike) are exactly the keys of its `step_defaults` map; a
violation in either direction is rejected (contrapositive of this
equivalence). -/
theorem claim9_step_coverage (node : SkillFile) (skill path : String)
    (h : validateSkillFile node skill path = .ok ()) :
    ∀ s, s ∈ allMethodSteps node.methods ↔ (dlookup node.step_defaults s).isSome = true := by
  simp only [validateSkillFile] at h
  split at h <;> first | exact Except.noConfusion h | skip
  split at h <;> first | exact Except.noConfusion h | skip
  split at h <;> first | exact Except.noConfusion h | skip
  split at h <;> first | exact Except.noConfusion h | skip
  split at h <;> first | exact Except.noConfusion h | skip
  split at h <;> first | exact Except.noConfusion h | skip
  split at h <;> first | exact Except.noConfusion h | skip
  split at h
  · exact absurd h (by simp)
  · rename_i hcov1
    split at h
    · exact absurd h (by simp)
    · rename_i hcov2
      intro s
      constructor
      · intro hmem
        obtain ⟨p, hp, hstep⟩ := mem_allMethodSteps.mp hmem
        have h1 := ensureEach_ok.mp hcov1 p hp
        simp only at h1
        have h2 := ensureEach_ok.mp h1 s hstep
        simp only at h2
        by_cases hnone : (dlookup node.step_defaults s).isNone = true
        · rw [if_pos hnone] at h2
          exact absurd h2 (by simp)
        · cases ho : dlookup node.step_defaults s with
          | none => rw [ho] at hnone; simp at hnone
          | some d => simp
      · intro hsome
        obtain ⟨d, hdl⟩ := Option.isSome_iff_exists.mp hsome
        have h2 := ensureEach_ok.mp hcov2 (s, d) (dlookup_mem hdl)
        simp only at h2
        by_cases hc : (allMethodSteps node.methods).contains s = true
        · simpa using hc
        · rw [if_pos hc] at h2
          exact absurd h2 (by simp)

def methodM1 : MethodNode := ⟨true, ["draft", "check"], ["codex"], "standard"⟩

def methodM2 : MethodNode := ⟨false, ["draft"], ["codex"], "standard"⟩

def stepDefaultD : StepDefaultNode := ⟨"codex", "normal", "off", none⟩

def skillP : SkillFile :=
  ⟨2, "plan", ["m1"], [("m1", methodM1), ("m2", methodM2)],
   [("draft", stepDefaultD), ("check", stepDefaultD)]⟩

/-- Witness for C9 on the concrete skill file `skillP`. -/
theorem claim9_step_coverage_witness :
    "draft" ∈ allMethodSteps skillP.methods ↔
      (dlookup skillP.step_defaults "draft").isSome = true :=
  claim9_step_coverage skillP "plan" "p" (by decide) "draft"

/-- C8: the v2 method selection takes the first entry of the phase
default_method_ids, overridden by a present manifest method id,
overridden again by a present runtime method id; it succeeds exactly when
the finally selected id is defined and enabled and raises a validation
error otherwise. -/
theorem claim8_method_selection (phaseCfg : SkillFile) (phase : String)
    (manifestMethodId runtimeMethodId : Option String) (d0 : String) (drest : List String)
    (hd : phaseCfg.default_method_ids = d0 :: drest)
    (hm : ∀ s, manifestMethodId = some s → s ≠ "")
    (hr : ∀ s, runtimeMethodId = some s → s ≠ "") :
    (∀ mid, resolveSelectedMethod phaseCfg phase manifestMethodId runtimeMethodId = .ok mid →
      mid = selectedMethodIdSpec d0 manifestMethodId runtimeMethodId ∧
      ∃ mn, dlookup phaseCfg.methods mid = some mn ∧ mn.enabled = true) ∧
    ((dlookup phaseCfg.methods (selectedMethodIdSpec d0 manifestMethodId runtimeMethodId)
        = none ∨
      (∃ mn, dlookup phaseCfg.methods
          (selectedMethodIdSpec d0 manifestMethodId runtimeMethodId) = some mn ∧
        mn.enabled = false)) →
      ∃ e, resolveSelectedMethod phaseCfg phase manifestMethodId runtimeMethodId = .error e) := by
  have hcode : resolveSelectedMethod phaseCfg phase manifestMethodId runtimeMethodId =
      (match dlookup phaseCfg.methods
          (selectedMethodIdSpec d0 manifestMethodId runtimeMethodId) with
       | none =>
         .error (.vmsg ("resolved method_id " ++
           selectedMethodIdSpec d0 manifestMethodId runtimeMethodId ++
           " is not defined in skills." ++ phase ++ ".methods"))
       | some mn =>
         if mn.enabled then
           .ok (selectedMethodIdSpec d0 manifestMethodId runtimeMethodId)
         else
           .error (.vmsg ("resolved method_id " ++
             selectedMethodIdSpec d0 manifestMethodId runtimeMethodId ++
             " is disabled"))) := by
    simp only [resolveSelectedMethod, hd]
    cases runtimeMethodId with
    | some s =>
      have hs := hr s rfl
      simp [selectedMethodIdSpec, hs]
    | none =>
      cases manifestMethodId with
      | some s2 =>
        have hs2 := hm s2 rfl
        simp [selectedMethodIdSpec, hs2]
      | none => simp [selectedMethodIdSpec]
  constructor
  · intro mid hok
    rw [hcode] at hok
    cases hlk : dlookup phaseCfg.methods
        (selectedMethodIdSpec d0 manifestMethodId runtimeMethodId) with
    | none =>
      simp only [hlk] at hok
      exact Except.noConfusion hok
    | some mn =>
      simp only [hlk] at hok
      by_cases he : mn.enabled = true
      · rw [if_pos he] at hok
        have hmid : selectedMethodIdSpec d0 manifestMethodId runtimeMethodId = mid :=
          Except.ok.injEq _ _ ▸ hok
        exact ⟨hmid.symm, mn, hmid ▸ hlk, he⟩
      · rw [if_neg he] at hok
        exact absurd hok (by simp)
  · intro hbad
    rw [hcode]
    rcases hbad with hnone | ⟨mn, hsome, hdis⟩
    · rw [hnone]
      exact ⟨_, rfl⟩
    · simp only [hsome, hdis]
      exact ⟨_, rfl⟩

/-- Witness for C8 on `skillP`: default selection picks `m1` (defined and
enabled), and a runtime override naming the disabled `m2` raises. -/
theorem claim8_method_selection_witness :
    (("m1" : String) = selectedMethodIdSpec "m1" none none ∧
      ∃ mn, dlookup skillP.methods "m1" = some mn ∧ mn.enabled = true) ∧
    (∃ e, resolveSelectedMethod skillP "plan" none (some "m2") = .error e) := by
  constructor
  · exact (claim8_method_selection skillP "plan" none none "m1" [] rfl
      (fun s hs => by cases hs) (fun s hs => by cases hs)).1 "m1" (by decide)
  · exact (claim8_method_selection skillP "plan" none (some "m2") "m1" [] rfl
      (fun s hs => by cases hs)
      (fun s hs => by cases hs; decide)).2
      (Or.inr ⟨methodM2, by decide, by decide⟩)

/-! ## Claim C7: default_model membership errors -/

def V2_TIMEOUT_MODES : List String := ["enforce", "wait_done"]

/-- A v2 servant file for `_validate_servant_file`; the optional
`purpose_models` / `purpose_efforts` / `effort_level_descriptions`
extension keys are allowed and never validated there. -/
structure ServantFileV2 where
  version : Int
  tool : String
  default_model : String
  allowed_models : List String
  wrapper_defaults : List (String × Yaml)
  web_capabilities_modes : List String
  purpose_models : Option Yaml
  purpose_efforts : Option Yaml
  effort_level_descriptions : Option Yaml

/-- `_validate_servant_file(node, tool, path)` from `config_validate_v2.py`,
in source order (the key-set and type checks are carried by the typed
structure). -/
def validateServantFileV2 (node : ServantFileV2) (tool path : String) : Except VErr Unit :=
  if node.version ≠ 2 then .error (.vdie (path ++ ".version") "must be 2")
  else if node.tool ≠ tool then .error (.vdie (path ++ ".tool") ("must be " ++ tool))
  else if strIsBlank node.default_model then
    .error (.vdie (path ++ ".default_model") "must be a non-empty string")
  else
  match expectStringList node.allowed_models (path ++ ".allowed_models") true with
  | .error e => .error e
  | .ok () =>
  if ¬ node.allowed_models.contains node.default_model then
    .error (.vdie (path ++ ".default_model") "must be included in allowed_models")
  else
  match ensureKeys node.wrapper_defaults
      ["timeout_ms", "timeout_mode", "effort", "approval_mode", "sandbox"]
      (path ++ ".wrapper_defaults") with
  | .error e => .error e
  | .ok () =>
  match dlookup node.wrapper_defaults "timeout_ms" with
  | some (.yint n) =>
    if n < 0 then
      .error (.vdie (path ++ ".wrapper_defaults.timeout_ms") "must be a non-negative integer")
    else
    match yamlStr? (dlookup node.wrapper_defaults "timeout_mode") with
    | some tmv =>
      if strIsBlank tmv then
        .error (.vdie (path ++ ".wrapper_defaults.timeout_mode") "must be a non-empty string")
      else if ¬ V2_TIMEOUT_MODES.contains tmv then
        .error (.vdie (path ++ ".wrapper_defaults.timeout_mode") (mustBeOneOf V2_TIMEOUT_MODES))
      else
      match ensureEachIdx node.web_capabilities_modes 0 (fun idx mode =>
          if ¬ (TOOL_WEB_MODE_MAP tool).contains mode then
            .error (.vdie (path ++ ".web_capabilities.modes[" ++ toString idx ++ "]")
              (mustBeOneOf (sortStrings (TOOL_WEB_MODE_MAP tool))))
          else .ok ()) with
      | .error e => .error e
      | .ok () =>
        match expectStringList node.web_capabilities_modes
            (path ++ ".web_capabilities.modes") true with
        | .error e => .error e
        | .ok () =>
          if ¬ node.web_capabilities_modes.contains "off" then
            .error (.vdie (path ++ ".web_capabilities.modes") "must include off")
          else .ok ()
    | none =>
      .error (.vdie (path ++ ".wrapper_defaults.timeout_mode") "must be a non-empty string")
  | _ =>
    .error (.vdie (path ++ ".wrapper_defaults.timeout_ms") "must be a non-negative integer")

/-- A v2 servant file whose `default_model` is whitespace-only, hence not
a member of `allowed_models`. -/
def servantV2Bad : ServantFileV2 :=
  ⟨2, "codex", "   ", ["y", "z"],
   [("timeout_ms", .yint 1000), ("timeout_mode", .ystr "enforce")],
   ["off", "codex_explicit"], none, none, none⟩

/-- Counterexample for C7: a servant file whose `default_model` ("   ") is
not a member of its `allowed_models` (["y", "z"]), yet validation raises
the earlier non-empty-string error - same dotted path, different
message - instead of "must be included in allowed_models". -/
theorem claim7_counterexample :
    ("   " ∈ servantV2Bad.allowed_models → False) ∧
    validateServantFileV2 servantV2Bad "codex" "p" =
      .error (.vdie "p.default_model" "must be a non-empty string") ∧
    ("must be a non-empty string" : String) ≠ "must be included in allowed_models" := by
  decide

/-- C7 (amended): for a servant file passing the structural checks that
precede the membership check (version/tool tags, a non-blank
default_model string, a well-formed allowed_models list), a default_model
outside allowed_models makes both the v1 and the v2 validator raise
exactly the error whose dotted path ends in `default_model` and whose
message is "must be included in allowed_models". -/
theorem claim7_default_model_membership (cfgPath : String) (t : Tool) (node : ServantCfg)
    (nodeV2 : ServantFileV2) (tool path : String)
    (h1 : strIsBlank node.default_model = false)
    (h2 : expectStrSet node.allowed_models
      (cfgPath ++ ".servants." ++ t.tname ++ ".allowed_models") = .ok ())
    (h3 : node.default_model ∉ node.allowed_models)
    (h4 : nodeV2.version = 2) (h5 : nodeV2.tool = tool)
    (h6 : strIsBlank nodeV2.default_model = false)
    (h7 : expectStringList nodeV2.allowed_models (path ++ ".allowed_models") true = .ok ())
    (h8 : nodeV2.default_model ∉ nodeV2.allowed_models) :
    validateServantNode cfgPath t node =
      .error (.vdie (cfgPath ++ ".servants." ++ t.tname ++ ".default_model")
        "must be included in allowed_models") ∧
    validateServantFileV2 nodeV2 tool path =
      .error (.vdie (path ++ ".default_model") "must be included in allowed_models") := by
  have hc1 : node.allowed_models.contains node.default_model = false := by
    simpa using h3
  have hc2 : nodeV2.allowed_models.contains nodeV2.default_model = false := by
    simpa using h8
  constructor
  · simp only [validateServantNode, h1, h2, hc1]
    simp
  · simp only [validateServantFileV2, h4, h5, h6, h7, hc2]
    simp

/-- Witness for the amended C7 at concrete v1 and v2 servant nodes. -/
theorem claim7_default_model_membership_witness :
    validateServantNode "config" Tool.codex
        ⟨"x", ["y", "z"],
         [("effort", .ystr "high"), ("timeout_ms", .yint 1000),
          ("timeout_mode", .ystr "enforce")], [], []⟩ =
      .error (.vdie "config.servants.codex.default_model"
        "must be included in allowed_models") ∧
    validateServantFileV2 ⟨2, "codex", "x", ["y", "z"],
        [("timeout_ms", .yint 1000), ("timeout_mode", .ystr "enforce")],
        ["off"], none, none, none⟩ "codex" "p" =
      .error (.vdie "p.default_model" "must be included in allowed_models") :=
  claim7_default_model_membership "config" Tool.codex
    ⟨"x", ["y", "z"],
     [("effort", .ystr "high"), ("timeout_ms", .yint 1000),
      ("timeout_mode", .ystr "enforce")], [], []⟩
    ⟨2, "codex", "x", ["y", "z"],
     [("timeout_ms", .yint 1000), ("timeout_mode", .ystr "enforce")],
     ["off"], none, none, none⟩ "codex" "p"
    (by decide) (by decide) (by decide) (by decide) (by decide) (by decide)
    (by decide) (by decide)

/-! ## Claim C4: extra files and the two loaders

The file-system surface of `load_and_validate_split_config` (v1) and
`_validate_expected_files` (v2), over an abstract directory tree: a set of
subdirectory names and a list of (subdirectory, file name, parsed YAML
document) entries. v1 aggregates the isinstance layer differently from
Python (all six files are loaded and normalized, then type-parsed, then
semantically validated) so on an invalid tree the reported error may
differ; on success both agree. Python int-bool coercion
(`True == 1`) is not modelled. -/

/-- One file of a config root: subdirectory, file name, parsed content. -/
structure FSFile where
  subdir : String
  fname : String
  content : Yaml

/-- An abstract config root: its subdirectories and their files. -/
structure FileSys where
  dirs : List String
  files : List FSFile

/-- Read a file of the tree (the `open` + `yaml.safe_load` step; `none`
is a missing file). -/
def fsLookup (fs : FileSys) (subdir fname : String) : Option Yaml :=
  match fs.files.find? (fun f => f.subdir == subdir && f.fname == fname) with
  | some f => some f.content
  | none => none

/-- `_load_yaml(path)` on the document found at `path`. -/
def loadYamlDoc (doc : Option Yaml) (path : String) : Except VErr (List (String × Yaml)) :=
  match doc with
  | none => .error (.vdie path "file not found")
  | some .ynull => .error (.vdie path "file is empty")
  | some (.ymap m) => .ok m
  | some _ => .error (.vdie path "top-level must be a mapping")

def SERVANT_FULL_KEYS : List String :=
  ["version", "tool", "default_model", "allowed_models", "wrapper_defaults",
   "purpose_models", "purpose_efforts"]

def SERVANT_COMPACT_KEYS : List String :=
  ["default_model", "allowed_models", "wrapper_defaults", "purpose_models", "purpose_efforts"]

def PIPELINE_FULL_KEYS : List String :=
  ["version", "pipeline", "default_profile", "profiles"]

def PIPELINE_COMPACT_KEYS : List String :=
  ["default_profile", "profiles"]

/-- `_normalize_servant_file(raw, servant, path)`. -/
def normalizeServantFile (raw : List (String × Yaml)) (servant path : String) :
    Except VErr (List (String × Yaml)) :=
  if (dlookup raw "version").isSome || (dlookup raw "tool").isSome then
    match ensureKeys raw SERVANT_FULL_KEYS path with
    | .error e => .error e
    | .ok () =>
      match dlookup raw "version" with
      | some (.yint n) =>
        if n ≠ 1 then .error (.vdie (path ++ ".version") "must be 1")
        else
          match dlookup raw "tool" with
          | some (.ystr s) =>
            if s ≠ servant then .error (.vdie (path ++ ".tool") ("must be " ++ servant))
            else
              match dlookup raw "default_model" with
              | none => .error (.keyError "default_model")
              | some dm =>
              match dlookup raw "allowed_models" with
              | none => .error (.keyError "allowed_models")
              | some am =>
              match dlookup raw "wrapper_defaults" with
              | none => .error (.keyError "wrapper_defaults")
              | some wd =>
                .ok [("default_model", dm), ("allowed_models", am), ("wrapper_defaults", wd),
                     ("purpose_models", (dlookup raw "purpose_models").getD (.ymap [])),
                     ("purpose_efforts", (dlookup raw "purpose_efforts").getD (.ymap []))]
          | _ => .error (.vdie (path ++ ".tool") ("must be " ++ servant))
      | _ => .error (.vdie (path ++ ".version") "must be 1")
  else
    match ensureKeys raw SERVANT_COMPACT_KEYS path with
    | .error e => .error e
    | .ok () => .ok raw

/-- `_normalize_pipeline_file(raw, pipeline, path)`. -/
def normalizePipelineFile (raw : List (String × Yaml)) (pipeline path : String) :
    Except VErr (List (String × Yaml)) :=
  if (dlookup raw "version").isSome || (dlookup raw "pipeline").isSome then
    match ensureKeys raw PIPELINE_FULL_KEYS path with
    | .error e => .error e
    | .ok () =>
      match dlookup raw "version" with
      | some (.yint n) =>
        if n ≠ 1 then .error (.vdie (path ++ ".version") "must be 1")
        else
          match dlookup raw "pipeline" with
          | some (.ystr s) =>
            if s ≠ pipeline then .error (.vdie (path ++ ".pipeline") ("must be " ++ pipeline))
            else
              match dlookup raw "default_profile" with
              | none => .error (.keyError "default_profile")
              | some dp =>
              match dlookup raw "profiles" with
              | none => .error (.keyError "profiles")
              | some pr =>
                .ok [("default_profile", dp), ("profiles", pr)]
          | _ => .error (.vdie (path ++ ".pipeline") ("must be " ++ pipeline))
      | _ => .error (.vdie (path ++ ".version") "must be 1")
  else
    match ensureKeys raw PIPELINE_COMPACT_KEYS path with
    | .error e => .error e
    | .ok () => .ok raw

/-- Python truthiness of a YAML value. -/
def yamlTruthy : Yaml → Bool
  | .ynull => false
  | .ybool b => b
  | .yint n => n != 0
  | .ystr s => s != ""
  | .ylist l => !l.isEmpty
  | .ymap m => !m.isEmpty

/-- `value or {}`. -/
def pyOrEmptyMap (v : Option Yaml) : Yaml :=
  match v with
  | none => .ymap []
  | some y => if yamlTruthy y then y else .ymap []

/-- `_expect_type(value or \x7b\x7d, dict, path)`. -/
def asOrMap (v : Option Yaml) (path : String) : Except VErr (List (String × Yaml)) :=
  match pyOrEmptyMap v with
  | .ymap m => .ok m
  | _ => .error (.vdie path "must be dict")

/-- `_expect_type(value, dict, path)`. -/
def asMapD (v : Option Yaml) (path : String) : Except VErr (List (String × Yaml)) :=
  match v with
  | some (.ymap m) => .ok m
  | _ => .error (.vdie path "must be dict")

/-- The `isinstance(value, str)` half of a non-empty-string check (the
strip half stays in the typed validator). -/
def asStrD (v : Option Yaml) (path : String) : Except VErr String :=
  match v with
  | some (.ystr s) => .ok s
  | _ => .error (.vdie path "must be a non-empty string")

/-- The string items of a YAML list (the isinstance half of
`_expect_str_set`). -/
def asStrItems (l : List Yaml) (path : String) (i : Nat) : Except VErr (List String) :=
  match l with
  | [] => .ok []
  | y :: rest =>
    match y with
    | .ystr s =>
      match asStrItems rest path (i + 1) with
      | .error e => .error e
      | .ok out => .ok (s :: out)
    | _ => .error (.vdie (path ++ "[" ++ toString i ++ "]") "must be a non-empty string")

/-- `_expect_type(value, list, path)` then the string items. -/
def asStrListD (v : Option Yaml) (path : String) : Except VErr (List String) :=
  match v with
  | some (.ylist l) => asStrItems l path 0
  | _ => .error (.vdie path "must be list")

/-- String-valued entries of a mapping; `msg` is the message the
surrounding Python loop gives a non-string value. -/
def asStrEntries (m : List (String × Yaml)) (path msg : String) :
    Except VErr (List (String × String)) :=
  match m with
  | [] => .ok []
  | (k, y) :: rest =>
    match y with
    | .ystr s =>
      match asStrEntries rest path msg with
      | .error e => .error e
      | .ok out => .ok ((k, s) :: out)
    | _ => .error (.vdie (path ++ "." ++ k) msg)

/-- Boolean-valued entries of a mapping. -/
def asBoolEntries (m : List (String × Yaml)) (path : String) :
    Except VErr (List (String × Bool)) :=
  match m with
  | [] => .ok []
  | (k, y) :: rest =>
    match y with
    | .ybool b =>
      match asBoolEntries rest path with
      | .error e => .error e
      | .ok out => .ok ((k, b) :: out)
    | _ => .error (.vdie (path ++ "." ++ k) "must be boolean")

/-- The untyped-to-typed bridge for one servant node: the dict-shape,
key-set and value-type checks of the servant section of
`validate_runtime_config_dict`; the semantic checks (non-blank strings,
vocabularies, memberships) stay in `validateServantNode`. -/
def parseServantCfg (m : List (String × Yaml)) (spath : String) : Except VErr ServantCfg :=
  match ensureKeys m SERVANT_COMPACT_KEYS spath with
  | .error e => .error e
  | .ok () =>
  match asStrD (dlookup m "default_model") (spath ++ ".default_model") with
  | .error e => .error e
  | .ok dm =>
  match asStrListD (dlookup m "allowed_models") (spath ++ ".allowed_models") with
  | .error e => .error e
  | .ok am =>
  match asMapD (dlookup m "wrapper_defaults") (spath ++ ".wrapper_defaults") with
  | .error e => .error e
  | .ok wd =>
  match asOrMap (dlookup m "purpose_models") (spath ++ ".purpose_models") with
  | .error e => .error e
  | .ok pmRaw =>
  match asStrEntries pmRaw (spath ++ ".purpose_models") "must be a non-empty string" with
  | .error e => .error e
  | .ok pm =>
  match asOrMap (dlookup m "purpose_efforts") (spath ++ ".purpose_efforts") with
  | .error e => .error e
  | .ok peRaw =>
  match asStrEntries peRaw (spath ++ ".purpose_efforts")
      (mustBeOneOf (sortStrings CODEX_EFFORT_VALUES)) with
  | .error e => .error e
  | .ok pe => .ok ⟨dm, am, wd, pm, pe⟩

/-- The `stages` value of a profile as a string list: for impl/review the
list-shape half of `_expect_str_set`; for plan only absent, `None` or `[]`
is representable (anything else dies as unsupported). -/
def parseStages (pk : PK) (v : Option Yaml) (path : String) : Except VErr (List String) :=
  match pk with
  | .impl | .review =>
    match v with
    | some (.ylist l) => asStrItems l path 0
    | _ => .error (.vdie path "must be list")
  | .plan =>
    match v with
    | none => .ok []
    | some .ynull => .ok []
    | some (.ylist []) => .ok []
    | some _ => .error (.vdie path "is not supported for the plan pipeline")

/-- The untyped-to-typed bridge for one profile node. -/
def parseProfileCfg (pk : PK) (m : List (String × Yaml)) (ppath : String) :
    Except VErr ProfileCfg :=
  match ensureKeys m ["stages", "flags", "options", "stage_models", "stage_efforts"] ppath with
  | .error e => .error e
  | .ok () =>
  match parseStages pk (dlookup m "stages") (ppath ++ ".stages") with
  | .error e => .error e
  | .ok st =>
  match asOrMap (dlookup m "flags") (ppath ++ ".flags") with
  | .error e => .error e
  | .ok flRaw =>
  match asBoolEntries flRaw (ppath ++ ".flags") with
  | .error e => .error e
  | .ok fl =>
  match asOrMap (dlookup m "options") (ppath ++ ".options") with
  | .error e => .error e
  | .ok opRaw =>
  match asStrEntries opRaw (ppath ++ ".options") "must be string" with
  | .error e => .error e
  | .ok op =>
  match asOrMap (dlookup m "stage_models") (ppath ++ ".stage_models") with
  | .error e => .error e
  | .ok smRaw =>
  match asStrEntries smRaw (ppath ++ ".stage_models") "must be a non-empty string" with
  | .error e => .error e
  | .ok sm =>
  match asOrMap (dlookup m "stage_efforts") (ppath ++ ".stage_efforts") with
  | .error e => .error e
  | .ok seRaw =>
  match asStrEntries seRaw (ppath ++ ".stage_efforts")
      (mustBeOneOf (sortStrings CODEX_EFFORT_VALUES)) with
  | .error e => .error e
  | .ok se => .ok ⟨st, fl, op, sm, se⟩

/-- The profile table of a pipeline node, each profile a mapping. -/
def parseProfiles (pk : PK) (entries : List (String × Yaml)) (base : String) :
    Except VErr (List (String × ProfileCfg)) :=
  match entries with
  | [] => .ok []
  | (name, y) :: rest =>
    match y with
    | .ymap pm =>
      match parseProfileCfg pk pm (base ++ "." ++ name) with
      | .error e => .error e
      | .ok prof =>
        match parseProfiles pk rest base with
        | .error e => .error e
        | .ok out => .ok ((name, prof) :: out)
    | _ => .error (.vdie (base ++ "." ++ name) "must be dict")

/-- The untyped-to-typed bridge for one pipeline node. -/
def parsePipelineCfg (pk : PK) (m : List (String × Yaml)) (base : String) :
    Except VErr PipelineCfg :=
  match ensureKeys m PIPELINE_COMPACT_KEYS base with
  | .error e => .error e
  | .ok () =>
  match asStrD (dlookup m "default_profile") (base ++ ".default_profile") with
  | .error e => .error e
  | .ok dp =>
  match asMapD (dlookup m "profiles") (base ++ ".profiles") with
  | .error e => .error e
  | .ok prRaw =>
  match parseProfiles pk prRaw (base ++ ".profiles") with
  | .error e => .error e
  | .ok pr => .ok ⟨dp, pr⟩

/-- Load plus normalize one servant file. -/
def loadNormServant (doc : Option Yaml) (servant path : String) :
    Except VErr (List (String × Yaml)) :=
  match loadYamlDoc doc path with
  | .error e => .error e
  | .ok raw => normalizeServantFile raw servant path

/-- Load plus normalize one pipeline file. -/
def loadNormPipeline (doc : Option Yaml) (pipeline path : String) :
    Except VErr (List (String × Yaml)) :=
  match loadYamlDoc doc path with
  | .error e => .error e
  | .ok raw => normalizePipelineFile raw pipeline path

/-- `load_and_validate_split_config` over the six documents it reads
(`SERVANT_FILES` then `PIPELINE_FILES`, in source order), followed by the
untyped-to-typed bridge and `validate_runtime_config_dict`. -/
def loadSplitFromDocs (root : String)
    (dCodex dGemini dCopilot dImpl dReview dPlan : Option Yaml) : Except VErr Config :=
  match loadNormServant dCodex "codex" (root ++ "/servant/codex.yaml") with
  | .error e => .error e
  | .ok mCodex =>
  match loadNormServant dGemini "gemini" (root ++ "/servant/gemini.yaml") with
  | .error e => .error e
  | .ok mGemini =>
  match loadNormServant dCopilot "copilot" (root ++ "/servant/copilot.yaml") with
  | .error e => .error e
  | .ok mCopilot =>
  match loadNormPipeline dImpl "impl" (root ++ "/pipeline/impl-pipeline.yaml") with
  | .error e => .error e
  | .ok mImpl =>
  match loadNormPipeline dReview "review" (root ++ "/pipeline/review-pipeline.yaml") with
  | .error e => .error e
  | .ok mReview =>
  match loadNormPipeline dPlan "plan" (root ++ "/pipeline/plan-pipeline.yaml") with
  | .error e => .error e
  | .ok mPlan =>
  match parseServantCfg mCodex (root ++ ".servants.codex") with
  | .error e => .error e
  | .ok sCodex =>
  match parseServantCfg mGemini (root ++ ".servants.gemini") with
  | .error e => .error e
  | .ok sGemini =>
  match parseServantCfg mCopilot (root ++ ".servants.copilot") with
  | .error e => .error e
  | .ok sCopilot =>
  match parsePipelineCfg .impl mImpl (root ++ ".pipelines.impl") with
  | .error e => .error e
  | .ok pImpl =>
  match parsePipelineCfg .review mReview (root ++ ".pipelines.review") with
  | .error e => .error e
  | .ok pReview =>
  match parsePipelineCfg .plan mPlan (root ++ ".pipelines.plan") with
  | .error e => .error e
  | .ok pPlan =>
  validateRuntimeConfigDict ⟨sCodex, sGemini, sCopilot, pImpl, pReview, pPlan⟩ root

/-- The six (subdirectory, file name) pairs v1 reads - and the only paths
it ever touches (`SERVANT_FILES` and `PIPELINE_FILES`). -/
def V1_EXPECTED_PATHS : List (String × String) :=
  [("servant", "codex.yaml"), ("servant", "gemini.yaml"), ("servant", "copilot.yaml"),
   ("pipeline", "impl-pipeline.yaml"), ("pipeline", "review-pipeline.yaml"),
   ("pipeline", "plan-pipeline.yaml")]

/-- `load_and_validate_split_config(config_root)` over an abstract tree. -/
def loadAndValidateSplitConfigFS (root : String) (fs : FileSys) : Except VErr Config :=
  loadSplitFromDocs root
    (fsLookup fs "servant" "codex.yaml") (fsLookup fs "servant" "gemini.yaml")
    (fsLookup fs "servant" "copilot.yaml") (fsLookup fs "pipeline" "impl-pipeline.yaml")
    (fsLookup fs "pipeline" "review-pipeline.yaml") (fsLookup fs "pipeline" "plan-pipeline.yaml")

/-- Drop every file outside v1's expected six. -/
def restrictToExpectedV1 (fs : FileSys) : FileSys :=
  ⟨fs.dirs, fs.files.filter (fun f => V1_EXPECTED_PATHS.contains (f.subdir, f.fname))⟩

/-- `EXPECTED_FILES` of `config_validate_v2.py`. -/
def V2_EXPECTED_FILES (subdir : String) : List String :=
  if subdir = "skills" then ["plan.yaml", "impl.yaml", "review.yaml"]
  else if subdir = "servants" then ["codex.yaml", "gemini.yaml", "copilot.yaml"]
  else if subdir = "policies" then ["routing.yaml", "review_parallel.yaml", "web_evidence.yaml"]
  else []

/-- `OPTIONAL_FILES` of `config_validate_v2.py` (empty). -/
def V2_OPTIONAL_FILES (subdir : String) : List String :=
  match subdir with
  | _ => []

/-- `_validate_expected_files(root, subdir)`: `found` is the set of
`.yaml` files of the subdirectory (a set, hence the dedup before the
extra check). -/
def validateExpectedFiles (fs : FileSys) (root subdir : String) : Except VErr Unit :=
  let dirPath := root ++ "/" ++ subdir
  if ¬ fs.dirs.contains subdir then .error (.vdie dirPath "directory not found")
  else
    let found := (fs.files.filter
      (fun f => f.subdir == subdir && strEndsWith f.fname ".yaml")).map (fun f => f.fname)
    let expected := V2_EXPECTED_FILES subdir
    let missing := sortStrings (expected.filter (fun e => !found.contains e))
    if missing ≠ [] then
      .error (.vdie dirPath ("missing required files: " ++ String.intercalate ", " missing))
    else
      let extra := sortStrings ((found.filter (fun f =>
        !expected.contains f && !(V2_OPTIONAL_FILES subdir).contains f)).dedup)
      if extra ≠ [] then
        .error (.vdie dirPath ("unknown config files: " ++ String.intercalate ", " extra))
      else .ok ()

/-- A compact-shape codex servant file. -/
def docServantCodex : Yaml := .ymap
  [("default_model", .ystr "gpt"),
   ("allowed_models", .ylist [.ystr "gpt"]),
   ("wrapper_defaults", .ymap
     [("timeout_ms", .yint 1200000), ("timeout_mode", .ystr "enforce"),
      ("effort", .ystr "high")])]

/-- A compact-shape gemini servant file. -/
def docServantGemini : Yaml := .ymap
  [("default_model", .ystr "gem"),
   ("allowed_models", .ylist [.ystr "gem"]),
   ("wrapper_defaults", .ymap
     [("timeout_ms", .yint 1200000), ("timeout_mode", .ystr "enforce"),
      ("approval_mode", .ystr "default"), ("sandbox", .ybool true)])]

/-- A compact-shape copilot servant file. -/
def docServantCopilot : Yaml := .ymap
  [("default_model", .ystr "cop"),
   ("allowed_models", .ylist [.ystr "cop"]),
   ("wrapper_defaults", .ymap
     [("timeout_ms", .yint 1200000), ("timeout_mode", .ystr "enforce")])]

/-- A compact-shape impl pipeline file. -/
def docPipelineImpl : Yaml := .ymap
  [("default_profile", .ystr "safe_impl"),
   ("profiles", .ymap [("safe_impl", .ymap [("stages", .ylist [.ystr "codex_impl"])])])]

/-- A compact-shape review pipeline file. -/
def docPipelineReview : Yaml := .ymap
  [("default_profile", .ystr "codex_only"),
   ("profiles", .ymap [("codex_only", .ymap [("stages", .ylist [.ystr "codex_review"])])])]

/-- A compact-shape plan pipeline file. -/
def docPipelinePlan : Yaml := .ymap
  [("default_profile", .ystr "p"),
   ("profiles", .ymap [("p", .ymap [])])]

/-- A config root holding exactly the six files v1 expects. -/
def fsGood : FileSys :=
  ⟨["servant", "pipeline"],
   [⟨"servant", "codex.yaml", docServantCodex⟩,
    ⟨"servant", "gemini.yaml", docServantGemini⟩,
    ⟨"servant", "copilot.yaml", docServantCopilot⟩,
    ⟨"pipeline", "impl-pipeline.yaml", docPipelineImpl⟩,
    ⟨"pipeline", "review-pipeline.yaml", docPipelineReview⟩,
    ⟨"pipeline", "plan-pipeline.yaml", docPipelinePlan⟩]⟩

/-- The same root with a seventh, unexpected file next to the servant
files. -/
def fsExtra : FileSys :=
  ⟨["servant", "pipeline"],
   [⟨"servant", "codex.yaml", docServantCodex⟩,
    ⟨"servant", "gemini.yaml", docServantGemini⟩,
    ⟨"servant", "copilot.yaml", docServantCopilot⟩,
    ⟨"pipeline", "impl-pipeline.yaml", docPipelineImpl⟩,
    ⟨"pipeline", "review-pipeline.yaml", docPipelineReview⟩,
    ⟨"pipeline", "plan-pipeline.yaml", docPipelinePlan⟩,
    ⟨"servant", "extra.yaml", .ymap [("default_model", .ystr "x")]⟩]⟩

/-- Counterexample for C4: the v1 loader accepts a config root whose
servant directory holds a file beyond the expected set - it only ever
reads the six fixed paths and never lists a directory. -/
theorem claim4_counterexample :
    (loadAndValidateSplitConfigFS "root" fsExtra).isOk = true ∧
    ("servant", "extra.yaml") ∈ fsExtra.files.map (fun f => (f.subdir, f.fname)) ∧
    ("servant", "extra.yaml") ∉ V1_EXPECTED_PATHS := by
  decide

theorem sortStrings_eq_nil {l : List String} (h : sortStrings l = []) : l = [] := by
  by_contra hne
  exact sortStrings_ne_nil hne h

/-- A key-set check that passes bounds the keys. -/
theorem ensureKeys_ok_sub {α : Type} {m : List (String × α)} {allowed : List String}
    {path : String} (h : ensureKeys m allowed path = .ok ()) :
    ∀ k ∈ keysOf m, k ∈ allowed := by
  intro k hk
  simp only [ensureKeys] at h
  split at h
  · rename_i hnil
    have h1 : (keysOf m).filter (fun x => !allowed.contains x) = [] := by
      simpa using sortStrings_eq_nil hnil
    by_cases hc : k ∈ allowed
    · exact hc
    · have hmem : k ∈ (keysOf m).filter (fun x => !allowed.contains x) :=
        List.mem_filter.mpr ⟨hk, by simp [hc]⟩
      rw [h1] at hmem
      simp at hmem
  · exact Except.noConfusion h

/-- A successful load means the path held a mapping document. -/
theorem loadYamlDoc_ok {doc : Option Yaml} {path : String} {m : List (String × Yaml)}
    (h : loadYamlDoc doc path = .ok m) : doc = some (.ymap m) := by
  cases doc with
  | none => simp [loadYamlDoc] at h
  | some y =>
    cases y with
    | ymap mm => simp only [loadYamlDoc, Except.ok.injEq] at h; rw [h]
    | ynull => simp [loadYamlDoc] at h
    | ybool b => simp [loadYamlDoc] at h
    | yint n => simp [loadYamlDoc] at h
    | ystr s => simp [loadYamlDoc] at h
    | ylist l => simp [loadYamlDoc] at h

/-- A normalized servant file had only full-shape top-level keys. -/
theorem normalizeServantFile_keys {raw : List (String × Yaml)} {servant path : String}
    {out : List (String × Yaml)} (h : normalizeServantFile raw servant path = .ok out) :
    ∀ k ∈ keysOf raw, k ∈ SERVANT_FULL_KEYS := by
  intro k hk
  simp only [normalizeServantFile] at h
  split at h
  · split at h
    · exact Except.noConfusion h
    · rename_i hek
      exact ensureKeys_ok_sub hek k hk
  · split at h
    · exact Except.noConfusion h
    · rename_i hek
      have hc := ensureKeys_ok_sub hek k hk
      simp [SERVANT_COMPACT_KEYS] at hc
      rcases hc with rfl | rfl | rfl | rfl | rfl <;> simp [SERVANT_FULL_KEYS]

/-- A normalized pipeline file had only full-shape top-level keys. -/
theorem normalizePipelineFile_keys {raw : List (String × Yaml)} {pipeline path : String}
    {out : List (String × Yaml)} (h : normalizePipelineFile raw pipeline path = .ok out) :
    ∀ k ∈ keysOf raw, k ∈ PIPELINE_FULL_KEYS := by
  intro k hk
  simp only [normalizePipelineFile] at h
  split at h
  · split at h
    · exact Except.noConfusion h
    · rename_i hek
      exact ensureKeys_ok_sub hek k hk
  · split at h
    · exact Except.noConfusion h
    · rename_i hek
      have hc := ensureKeys_ok_sub hek k hk
      simp [PIPELINE_COMPACT_KEYS] at hc
      rcases hc with rfl | rfl <;> simp [PIPELINE_FULL_KEYS]

/-- Load-plus-normalize success pins the document down to a mapping with
bounded keys. -/
theorem loadNormServant_ok {doc : Option Yaml} {servant path : String}
    {out : List (String × Yaml)} (h : loadNormServant doc servant path = .ok out) :
    ∃ raw, doc = some (.ymap raw) ∧ ∀ k ∈ keysOf raw, k ∈ SERVANT_FULL_KEYS := by
  simp only [loadNormServant] at h
  split at h
  · exact Except.noConfusion h
  · rename_i raw hld
    exact ⟨raw, loadYamlDoc_ok hld, normalizeServantFile_keys h⟩

theorem loadNormPipeline_ok {doc : Option Yaml} {pipeline path : String}
    {out : List (String × Yaml)} (h : loadNormPipeline doc pipeline path = .ok out) :
    ∃ raw, doc = some (.ymap raw) ∧ ∀ k ∈ keysOf raw, k ∈ PIPELINE_FULL_KEYS := by
  simp only [loadNormPipeline] at h
  split at h
  · exact Except.noConfusion h
  · rename_i raw hld
    exact ⟨raw, loadYamlDoc_ok hld, normalizePipelineFile_keys h⟩

/-- Filtering by a predicate the sought elements all satisfy does not
change a first-match search. -/
theorem find_filter_eq {α : Type} (l : List α) (p q : α → Bool)
    (himp : ∀ a, p a = true → q a = true) : (l.filter q).find? p = l.find? p := by
  induction l with
  | nil => rfl
  | cons a rest ih =>
    by_cases hp : p a = true
    · have hq := himp a hp
      simp [List.filter_cons, List.find?_cons, hp, hq]
    · by_cases hq : q a = true
      · simp [List.filter_cons, List.find?_cons, hp, hq, ih]
      · simp [List.filter_cons, List.find?_cons, hp, hq, ih]

/-- Dropping unexpected files does not change the lookup of an expected
path. -/
theorem fsLookup_restrict (fs : FileSys) (sd fn : String)
    (h : (sd, fn) ∈ V1_EXPECTED_PATHS) :
    fsLookup (restrictToExpectedV1 fs) sd fn = fsLookup fs sd fn := by
  simp only [fsLookup, restrictToExpectedV1]
  have hfq : (fs.files.filter
      (fun f => V1_EXPECTED_PATHS.contains (f.subdir, f.fname))).find?
        (fun f => f.subdir == sd && f.fname == fn) =
      fs.files.find? (fun f => f.subdir == sd && f.fname == fn) := by
    apply find_filter_eq
    intro f hp
    have hps : f.subdir = sd ∧ f.fname = fn := by simpa using hp
    have hpair : (f.subdir, f.fname) = (sd, fn) := by rw [hps.1, hps.2]
    rw [hpair]
    simpa using h
  rw [hfq]

/-- The top-level key vocabulary of a v1 config file. -/
def v1TopKeys (sd : String) : List String :=
  if sd = "servant" then SERVANT_FULL_KEYS else PIPELINE_FULL_KEYS

/-- C4 (amended): (1) the v2 validator rejects a checked config directory
holding a `.yaml` file beyond its expected set; (2) the v1 loader reads
only its six fixed paths - deleting every file outside them changes its
result on nothing - so it accepts rather than rejects extra files; (3) on
v1 success each of the six expected files is present, parseable as a
mapping, with top-level keys inside the declared key set. -/
theorem claim4_expected_files :
    (∀ (fs : FileSys) (root subdir : String) (f : FSFile),
      subdir ∈ ["skills", "servants", "policies"] →
      f ∈ fs.files → f.subdir = subdir → strEndsWith f.fname ".yaml" = true →
      f.fname ∉ V2_EXPECTED_FILES subdir →
      ∃ e, validateExpectedFiles fs root subdir = .error e) ∧
    (∀ (root : String) (fs : FileSys),
      loadAndValidateSplitConfigFS root (restrictToExpectedV1 fs) =
        loadAndValidateSplitConfigFS root fs) ∧
    (∀ (root : String) (fs : FileSys) (cfg : Config),
      loadAndValidateSplitConfigFS root fs = .ok cfg →
      ∀ sd fn, (sd, fn) ∈ V1_EXPECTED_PATHS →
        ∃ m, fsLookup fs sd fn = some (.ymap m) ∧ ∀ k ∈ keysOf m, k ∈ v1TopKeys sd) := by
  refine ⟨?_, ?_, ?_⟩
  · intro fs root subdir f hsub hf hfs hyaml hnot
    simp only [validateExpectedFiles]
    split
    · exact ⟨_, rfl⟩
    · split
      · exact ⟨_, rfl⟩
      · split
        · exact ⟨_, rfl⟩
        · rename_i hdir hmiss hextra
          exfalso
          have hmem1 : f.fname ∈ (fs.files.filter
              (fun g => g.subdir == subdir && strEndsWith g.fname ".yaml")).map
              (fun g => g.fname) :=
            List.mem_map.mpr ⟨f, List.mem_filter.mpr ⟨hf, by rw [hfs]; simp [hyaml]⟩, rfl⟩
          have hmem2 : f.fname ∈ ((fs.files.filter
              (fun g => g.subdir == subdir && strEndsWith g.fname ".yaml")).map
              (fun g => g.fname)).filter
              (fun n => !(V2_EXPECTED_FILES subdir).contains n &&
                !(V2_OPTIONAL_FILES subdir).contains n) :=
            List.mem_filter.mpr ⟨hmem1, by simp [V2_OPTIONAL_FILES, hnot]⟩
          have hne : (((fs.files.filter
              (fun g => g.subdir == subdir && strEndsWith g.fname ".yaml")).map
              (fun g => g.fname)).filter
              (fun n => !(V2_EXPECTED_FILES subdir).contains n &&
                !(V2_OPTIONAL_FILES subdir).contains n)).dedup ≠ [] := by
            intro h0
            have hmem3 := List.mem_dedup.mpr hmem2
            rw [h0] at hmem3
            simp at hmem3
          exact hne (sortStrings_eq_nil (not_not.mp hextra))
  · intro root fs
    simp only [loadAndValidateSplitConfigFS]
    rw [fsLookup_restrict fs "servant" "codex.yaml" (by decide),
        fsLookup_restrict fs "servant" "gemini.yaml" (by decide),
        fsLookup_restrict fs "servant" "copilot.yaml" (by decide),
        fsLookup_restrict fs "pipeline" "impl-pipeline.yaml" (by decide),
        fsLookup_restrict fs "pipeline" "review-pipeline.yaml" (by decide),
        fsLookup_restrict fs "pipeline" "plan-pipeline.yaml" (by decide)]
  · intro root fs cfg h sd fn hmem
    simp only [loadAndValidateSplitConfigFS, loadSplitFromDocs] at h
    split at h
    · exact Except.noConfusion h
    · rename_i m1 h1
      split at h
      · exact Except.noConfusion h
      · rename_i m2 h2
        split at h
        · exact Except.noConfusion h
        · rename_i m3 h3
          split at h
          · exact Except.noConfusion h
          · rename_i m4 h4
            split at h
            · exact Except.noConfusion h
            · rename_i m5 h5
              split at h
              · exact Except.noConfusion h
              · rename_i m6 h6
                simp only [V1_EXPECTED_PATHS, List.mem_cons, Prod.mk.injEq,
                  List.not_mem_nil, or_false] at hmem
                rcases hmem with ⟨rfl, rfl⟩ | ⟨rfl, rfl⟩ | ⟨rfl, rfl⟩ |
                  ⟨rfl, rfl⟩ | ⟨rfl, rfl⟩ | ⟨rfl, rfl⟩
                · obtain ⟨raw, hdoc, hkeys⟩ := loadNormServant_ok h1
                  refine ⟨raw, hdoc, ?_⟩
                  intro k hk
                  simpa [v1TopKeys] using hkeys k hk
                · obtain ⟨raw, hdoc, hkeys⟩ := loadNormServant_ok h2
                  refine ⟨raw, hdoc, ?_⟩
                  intro k hk
                  simpa [v1TopKeys] using hkeys k hk
                · obtain ⟨raw, hdoc, hkeys⟩ := loadNormServant_ok h3
                  refine ⟨raw, hdoc, ?_⟩
                  intro k hk
                  simpa [v1TopKeys] using hkeys k hk
                · obtain ⟨raw, hdoc, hkeys⟩ := loadNormPipeline_ok h4
                  refine ⟨raw, hdoc, ?_⟩
                  intro k hk
                  simpa [v1TopKeys] using hkeys k hk
                · obtain ⟨raw, hdoc, hkeys⟩ := loadNormPipeline_ok h5
                  refine ⟨raw, hdoc, ?_⟩
                  intro k hk
                  simpa [v1TopKeys] using hkeys k hk
                · obtain ⟨raw, hdoc, hkeys⟩ := loadNormPipeline_ok h6
                  refine ⟨raw, hdoc, ?_⟩
                  intro k hk
                  simpa [v1TopKeys] using hkeys k hk

/-- Witness for the amended C4: the v2 rejection on a concrete skills
directory with a stray file, the v1 restriction invariance on `fsExtra`,
and the part-3 guarantee on the accepted `fsGood` at the codex path. -/
theorem claim4_expected_files_witness :
    (∃ e, validateExpectedFiles ⟨["skills"], [⟨"skills", "bogus.yaml", .ynull⟩]⟩
      "root" "skills" = .error e) ∧
    loadAndValidateSplitConfigFS "root" (restrictToExpectedV1 fsExtra) =
      loadAndValidateSplitConfigFS "root" fsExtra ∧
    (∃ m, fsLookup fsGood "servant" "codex.yaml" = some (.ymap m) ∧
      ∀ k ∈ keysOf m, k ∈ v1TopKeys "servant") := by
  refine ⟨?_, ?_, ?_⟩
  · exact claim4_expected_files.1 ⟨["skills"], [⟨"skills", "bogus.yaml", .ynull⟩]⟩
      "root" "skills" ⟨"skills", "bogus.yaml", .ynull⟩ (by decide)
      (List.mem_singleton.mpr rfl) rfl (by decide) (by decide)
  · exact claim4_expected_files.2.1 "root" fsExtra
  · cases hres : loadAndValidateSplitConfigFS "root" fsGood with
    | error e =>
      have hok : (loadAndValidateSplitConfigFS "root" fsGood).isOk = true := by decide
      rw [hres] at hok
      exact absurd hok (by simp [Except.isOk, Except.toBool])
    | ok cfg =>
      exact claim4_expected_files.2.2 "root" fsGood cfg hres "servant" "codex.yaml" (by decide)
